import Mathlib

/-!
# python-ubus: argument policies, method dispatch and the call engine

A shallow embedding of `ubus_python.c`.  C arrays are lists, C strings are `String`
(so `strcmp(a, b) == 0` is `a = b`), `NULL`-able pointers are `Option`, and the
collaborators the module only calls into (the bus library, the blob codec, the
Python `json` module, user callables) are fields of an environment record.
-/

namespace UbusPython

/-! ## Wire kinds and statuses -/

/-- Modelled from the spec: the kind tag "unspecified/any".  The enum `blobmsg_type`
is declared in libubox, outside the source file; it is its first member, and the
validation in `test_methods_argument` notes the tags are "indexed from 0". -/
def BLOBMSG_TYPE_UNSPEC : Int := 0

/-- Modelled from the spec: the kind tag "int32", sixth in the list of kinds
(unspecified, array, map, string, int64, int32, ...), declared in libubox. -/
def BLOBMSG_TYPE_INT32 : Int := 5

/-- One entry of a method's argument schema (`struct blobmsg_policy`). -/
structure blobmsg_policy where
  name : String
  type : Int
  deriving DecidableEq, Repr

/-- One attribute of an inbound message: `blobmsg_name`, `blobmsg_type` and the
payload bytes, which this module never inspects itself. -/
structure blob_attr where
  name : String
  type : Int
  data : String
  deriving DecidableEq, Repr

/-! ## Argument Policy Validator -/

/-- The inner `for (pol_idx = 0; pol_idx < n_policies; pol_idx++)` loop of
`test_policies`, started at `pol_idx`.  It stops at the first policy whose name
equals `name`: `some true` when the kind check passes (`break`), `some false`
when it does not (`return false`), and `none` when it runs to `n_policies`
without a match. -/
def policy_scan (name : String) (type : Int) : List blobmsg_policy → Option Bool
  | [] => none
  | p :: rest =>
    if name = p.name then
      if p.type ≠ BLOBMSG_TYPE_UNSPEC ∧ p.type ≠ type then some false else some true
    else policy_scan name type rest

/-- The `blob_for_each_attr` loop of `test_policies` with the running
`passed_count`; `none` is an early `return false`. -/
def test_policies_loop (policies : List blobmsg_policy) : List blob_attr → Nat → Option Nat
  | [], passed_count => some passed_count
  | cur :: rest, passed_count =>
    match policy_scan cur.name cur.type policies with
    | some true => test_policies_loop policies rest (passed_count + 1)
    | some false => none
    | none => none

/-- The function `test_policies(policies, n_policies, args)`, with `n_policies` the length of
the policy array as `ubus_python_add` sets it. -/
def test_policies (policies : List blobmsg_policy) (args : List blob_attr) : Bool :=
  match test_policies_loop policies args 0 with
  | some passed_count => passed_count == policies.length
  | none => false

/-! ## Collaborators -/

/-- Modelled from the spec: the statuses a dispatch or a bus request ends with
(`enum ubus_msg_status`, declared in libubus, outside the source file).  The members
are the ones the source names; `UBUS_STATUS_OK` is the zero the source tests with
`!retval`, and `other` stands for every further non-zero code of the library. -/
inductive ubus_msg_status where
  | UBUS_STATUS_OK
  | UBUS_STATUS_INVALID_ARGUMENT
  | UBUS_STATUS_METHOD_NOT_FOUND
  | UBUS_STATUS_NOT_FOUND
  | UBUS_STATUS_UNKNOWN_ERROR
  | other (code : Nat)
  deriving DecidableEq, Repr

open ubus_msg_status

/-- A Python value as far as the module can tell values apart. -/
inductive PyObject where
  | None
  | bool (b : Bool)
  | int (n : Int)
  | str (s : String)
  | callable (id : Nat)
  | list (items : List PyObject)
  | dict (items : List (PyObject × PyObject))
  | tuple (items : List PyObject)

/-- A Python exception set by the module (`PyErr_Format`), or `raised` for one
left set by a callee: the argument parser, the `json` module, an allocation. -/
inductive PyErr where
  | RuntimeError (msg : String)
  | TypeError (msg : String)
  | MemoryError (msg : String)
  | IOError (msg : String)
  | raised
  deriving DecidableEq, Repr

/-- The text of `MSG_NOT_CONNECTED`. -/
def MSG_NOT_CONNECTED : String := "You are not connected to ubus."

/-- The text of `MSG_JSON_TO_UBUS_FAILED`. -/
def MSG_JSON_TO_UBUS_FAILED : String := "Failed to create json for ubus."

/-- A `struct ubus_context *` that is not `NULL`. -/
abbrev ubus_context := Nat

/-- A `struct ubus_request_data *` that is not `NULL`. -/
abbrev ubus_request_data := Nat

/-- A method of a registered object (`struct ubus_method`); `n_policy` is the
length of `policy`. -/
structure ubus_method where
  name : String
  policy : List blobmsg_policy
  deriving DecidableEq, Repr

/-- The bus-side part of a registered object (`struct ubus_object`); `n_methods`
is the length of `methods`. -/
structure ubus_object where
  name : String
  methods : List ubus_method
  deriving DecidableEq, Repr

/-- A request the module hands to the bus library or to its event loop. -/
inductive BusOp where
  | send_reply (ctx : ubus_context) (req : ubus_request_data) (msg : List blob_attr)
  | lookup_id (ctx : ubus_context) (object : String)
  | invoke (ctx : ubus_context) (id : Nat) (method : String) (msg : List blob_attr)
      (timeout : Int)
  | connect (path : String)
  | add_uloop (ctx : ubus_context)
  | free (ctx : ubus_context)
  | uloop_done
  | add_object (ctx : ubus_context) (object : ubus_object)
  | remove_object (ctx : ubus_context) (object : ubus_object)
  | register_event_handler (ctx : ubus_context) (event : String)
  | unregister_event_handler (ctx : ubus_context) (event : String)
  | send_event (ctx : ubus_context) (event : String) (msg : List blob_attr)
  | lookup (ctx : ubus_context) (path : String)
  | handle_event (ctx : ubus_context)
  | uloop_init
  | uloop_timeout_set (timeout : Int)
  | uloop_run
  | uloop_timeout_cancel
  deriving DecidableEq, Repr

/-- What a user callable does while `PyObject_CallObject` runs it as a method
handler: the argument tuples of its successive `reply` calls on the response
handle, whether it ended by raising (the call returned `NULL`), and, when it did,
whether the exception is `SystemExit`, on which `PyErr_Print` ends the process
instead of returning. -/
structure HandlerRun where
  replies : List (List PyObject)
  raised : Bool
  system_exit : Bool

/-- The collaborators of the module: the blob codec, the `json` module, the
interpreter's allocations, user callables and the bus library.  Each field is the
outcome of the named call; `none` or `false` is its failure. -/
structure Env where
  /-- The call `blobmsg_format_json(msg, true)`; `none` is `NULL`. -/
  blobmsg_format_json : List blob_attr → Option String
  /-- Whether `PyUnicode_FromString(str)` returns an object. -/
  PyUnicode_FromString : String → Bool
  /-- The call `perform_json_function(LOADS, data)` on the text of `data`; `none` is `NULL`. -/
  json_loads : String → Option PyObject
  /-- The call `perform_json_function(DUMPS, data)`, as the UTF-8 text of the string it
  returns; `none` is `NULL`. -/
  json_dumps : PyObject → Option String
  /-- The call `blob_buf_init` followed by `blobmsg_add_json_from_string`: the attributes
  put into the buffer, `none` when it returns false. -/
  blobmsg_add_json_from_string : String → Option (List blob_attr)
  /-- Whether instantiating `ubus_ResponseHandlerType` returns an object. -/
  ResponseHandler_new : Bool
  /-- Whether `Py_BuildValue("(O, O)", handler, data_object)` returns a tuple. -/
  Py_BuildValue : Bool
  /-- The call `PyObject_CallObject(callable, callback_arglist)` for a method handler,
  by the callable (`none`: the `"method"` key is gone) and the decoded arguments. -/
  PyObject_CallObject : Option PyObject → PyObject → HandlerRun
  /-- The status of `ubus_send_reply(ctx, req, msg)`. -/
  ubus_send_reply : ubus_context → ubus_request_data → List blob_attr → ubus_msg_status
  /-- The call `ubus_lookup_id(ctx, object, &id)`: the status and the identifier stored. -/
  ubus_lookup_id : ubus_context → String → ubus_msg_status × Nat
  /-- The call `ubus_invoke(ctx, id, method, msg, cb, priv, timeout)`: the reply fragments
  the library passes to `cb` while it waits, in order (`none`: a `NULL` message),
  and the status it returns. -/
  ubus_invoke : ubus_context → Nat → String → List blob_attr → Int →
    List (Option (List blob_attr)) × ubus_msg_status
  /-- The text of `ubus_strerror(retval)`. -/
  ubus_strerror : ubus_msg_status → String
  /-- Whether `PyList_New(0)` returns a list. -/
  PyList_New : Bool
  /-- Whether `PyList_Append(list, item)` succeeds, by the items already there. -/
  PyList_Append : List PyObject → PyObject → Bool

/-- The call `PyDict_GetItemString(dict, key)`: the value under the string `key`, `none`
(`NULL`) when there is none. -/
def PyDict_GetItemString (dict : PyObject) (key : String) : Option PyObject :=
  match dict with
  | .dict items =>
    (items.find? (fun kv => match kv.1 with
      | .str k => k == key
      | _ => false)).map (fun kv => kv.2)
  | _ => none

/-! ## Response handle -/

/-- The back-references of a `ubus_ResponseHandler`; a `NULL` pointer is `none`. -/
structure ubus_ResponseHandler where
  ctx : Option ubus_context
  req : Option ubus_request_data
  deriving DecidableEq, Repr

/-- Outcome of `reply`: the value returned or the exception set, and the
requests made to the bus. -/
structure ReplyResult where
  ret : Except PyErr Bool
  bus : List BusOp

/-- The method `ubus_ResponseHandler_reply(self, args, kwargs)`; `ctx_global` is the module's
`ctx`, which `CONNECTED` tests, and `args` the positional arguments, of which the
format `"O"` takes exactly one. -/
def ubus_ResponseHandler_reply (env : Env) (ctx_global : Option ubus_context)
    (self : ubus_ResponseHandler) (args : List PyObject) : ReplyResult :=
  if ctx_global.isNone then ⟨.error (.RuntimeError MSG_NOT_CONNECTED), []⟩
  else
    match args with
    | [data] =>
      match env.json_dumps data with
      | none => ⟨.error .raised, []⟩
      | some json_str =>
        match env.blobmsg_add_json_from_string json_str with
        | none => ⟨.error (.TypeError MSG_JSON_TO_UBUS_FAILED), []⟩
        | some buf =>
          match self.req, self.ctx with
          | some req, some ctx =>
            let retval := env.ubus_send_reply ctx req buf
            ⟨.ok (retval == UBUS_STATUS_OK), [.send_reply ctx req buf]⟩
          | _, _ => ⟨.error (.RuntimeError "Handler is not linked to a call response."), []⟩
    | _ => ⟨.error .raised, []⟩

/-- The bus requests made by the `reply` calls of a running handler, in order. -/
def run_replies (env : Env) (ctx_global : Option ubus_context)
    (self : ubus_ResponseHandler) : List (List PyObject) → List BusOp
  | [] => []
  | args :: rest =>
    (ubus_ResponseHandler_reply env ctx_global self args).bus
      ++ run_replies env ctx_global self rest

/-! ## Method Dispatch Engine -/

/-- A registered object: `ubus_Object`, the bus-side table and the `methods`
dictionary the caller gave to `add`. -/
structure ubus_Object where
  object : ubus_object
  methods : PyObject

/-- What one dispatch did. -/
structure DispatchResult where
  /-- The status returned to the bus. -/
  retval : ubus_msg_status
  /-- User callables run, each with the decoded arguments it got. -/
  invoked : List (Option PyObject × PyObject)
  /-- Requests made to the bus, in order. -/
  bus : List BusOp
  /-- The response handle when the dispatch returns, if one was constructed; `none`
  also when the process ended before the dispatch returned. -/
  handler : Option ubus_ResponseHandler
  /-- Number of `PyErr_Print` calls. -/
  printed : Nat
  /-- Whether `PyErr_Print` ended the process, the callable having raised `SystemExit`:
  the dispatch then does not return, no status reaches the bus, and `retval` is what
  the variable held at that point. -/
  exited : Bool

/-- The function `ubus_python_method_handler(ctx, obj, req, method, msg)`; `ctx_global` is the
module's `ctx`, the one `reply` tests. -/
def ubus_python_method_handler (env : Env) (ctx_global : Option ubus_context)
    (ctx : ubus_context) (obj : ubus_Object) (req : ubus_request_data)
    (method : String) (msg : List blob_attr) : DispatchResult :=
  match obj.object.methods.find? (fun m => m.name == method) with
  | none => ⟨UBUS_STATUS_UNKNOWN_ERROR, [], [], none, 0, false⟩
  | some m =>
    if !test_policies m.policy msg then
      ⟨UBUS_STATUS_INVALID_ARGUMENT, [], [], none, 0, false⟩
    else
      match PyDict_GetItemString obj.methods method with
      | none => ⟨UBUS_STATUS_METHOD_NOT_FOUND, [], [], none, 0, false⟩
      | some python_method =>
        match env.blobmsg_format_json msg with
        | none => ⟨UBUS_STATUS_UNKNOWN_ERROR, [], [], none, 0, false⟩
        | some str =>
          if !env.PyUnicode_FromString str then
            ⟨UBUS_STATUS_UNKNOWN_ERROR, [], [], none, 0, false⟩
          else
            match env.json_loads str with
            | none => ⟨UBUS_STATUS_UNKNOWN_ERROR, [], [], none, 0, false⟩
            | some data_object =>
              if !env.ResponseHandler_new then ⟨UBUS_STATUS_OK, [], [], none, 1, false⟩
              else
                let handler : ubus_ResponseHandler := ⟨some ctx, some req⟩
                let cleared : ubus_ResponseHandler := ⟨none, none⟩
                if !env.Py_BuildValue then
                  ⟨UBUS_STATUS_UNKNOWN_ERROR, [], [], some cleared, 0, false⟩
                else
                  let callable := PyDict_GetItemString python_method "method"
                  let result := env.PyObject_CallObject callable data_object
                  let bus := run_replies env ctx_global handler result.replies
                  if result.raised then
                    if result.system_exit then
                      ⟨UBUS_STATUS_OK, [(callable, data_object)], bus, none, 1, true⟩
                    else
                      ⟨UBUS_STATUS_UNKNOWN_ERROR, [(callable, data_object)], bus,
                        some cleared, 1, false⟩
                  else
                    ⟨UBUS_STATUS_OK, [(callable, data_object)], bus, some cleared, 0, false⟩

/-! ## Call Engine -/

/-- A Python list object: its reference count and its items.  With a count of
zero the object has been freed and a pointer to it dangles. -/
structure PyListObject where
  ob_refcnt : Nat
  items : List PyObject

/-- The state of one outbound call while the bus delivers its reply fragments. -/
structure PendingCall where
  /-- The variable `results` of `ubus_python_call`, which the handler reaches
  through `req->priv`; `none` is `NULL`. -/
  results : Option PyListObject
  /-- The messages handed to `blobmsg_format_json` so far, in order. -/
  decoded : List (List blob_attr)
  /-- Whether a freed list has been used. -/
  fault : Bool

/-- The label `call_handler_cleanup`: `Py_DECREF(*results)`, then the assignment
`results = NULL` to the handler's own pointer, which leaves `*results` as it is. -/
def call_handler_cleanup (st : PendingCall) (list : PyListObject) : PendingCall :=
  { st with
    results := some { list with ob_refcnt := list.ob_refcnt - 1 }
    fault := st.fault || list.ob_refcnt == 0 }

/-- The function `ubus_python_call_handler(req, type, msg)` on the call state behind
`req->priv`; `type` is `UBUS_MSG_DATA`, as the assertion demands.  An append to a
list already freed is recorded in `fault` and modelled no further. -/
def ubus_python_call_handler (env : Env) (st : PendingCall)
    (msg : Option (List blob_attr)) : PendingCall :=
  match st.results with
  | none => st
  | some list =>
    match msg with
    | none => call_handler_cleanup st list
    | some msg =>
      let st := { st with decoded := st.decoded ++ [msg] }
      match env.blobmsg_format_json msg with
      | none => call_handler_cleanup st list
      | some str =>
        if !env.PyUnicode_FromString str then call_handler_cleanup st list
        else
          match env.json_loads str with
          | none => call_handler_cleanup st list
          | some data_object =>
            if list.ob_refcnt == 0 then { st with fault := true }
            else if !env.PyList_Append list.items data_object then
              call_handler_cleanup st list
            else
              { st with results := some { list with items := list.items ++ [data_object] } }

/-- The statement `Py_XDECREF(results)` in `ubus_python_call`. -/
def Py_XDECREF_results (st : PendingCall) : PendingCall :=
  match st.results with
  | none => st
  | some list => call_handler_cleanup st list

/-- Outcome of `call`: the list returned or the exception set, the requests made
to the bus, and the call state when the invocation ended. -/
structure CallResult where
  ret : Except PyErr PyListObject
  bus : List BusOp
  pending : Option PendingCall

/-- The function `ubus_python_call(module, args, kwargs)` after the argument tuple is split by
the format `"ssO|i"`; `ctx` is the module's `ctx`, and `timeout` the Python
integer given, which `"i"` refuses outside the range of a C `int`. -/
def ubus_python_call (env : Env) (ctx : Option ubus_context) (object method : String)
    (arguments : PyObject) (timeout : Int) : CallResult :=
  match ctx with
  | none => ⟨.error (.RuntimeError MSG_NOT_CONNECTED), [], none⟩
  | some ctx =>
    if timeout < -2147483648 ∨ 2147483647 < timeout then ⟨.error .raised, [], none⟩
    else if timeout < 0 then
      ⟨.error (.TypeError "timeout can\x27t be lower than 0"), [], none⟩
    else
      let (retval, id) := env.ubus_lookup_id ctx object
      let bus := [BusOp.lookup_id ctx object]
      if retval ≠ UBUS_STATUS_OK then
        ⟨.error (.RuntimeError ("Object \x27" ++ object ++ "\x27 was not found.")), bus, none⟩
      else
        match env.json_dumps arguments with
        | none => ⟨.error .raised, bus, none⟩
        | some json_arguments =>
          match env.blobmsg_add_json_from_string json_arguments with
          | none => ⟨.error (.TypeError MSG_JSON_TO_UBUS_FAILED), bus, none⟩
          | some python_buf =>
            if !env.PyList_New then ⟨.error .raised, bus, none⟩
            else
              let results : PendingCall := ⟨some ⟨1, []⟩, [], false⟩
              let (fragments, retval) := env.ubus_invoke ctx id method python_buf timeout
              let bus := bus ++ [BusOp.invoke ctx id method python_buf timeout]
              let st := fragments.foldl (ubus_python_call_handler env) results
              if retval ≠ UBUS_STATUS_OK then
                ⟨.error (.RuntimeError ("ubus error occured: " ++ env.ubus_strerror retval)),
                  bus, some (Py_XDECREF_results st)⟩
              else
                match st.results with
                | some list => ⟨.ok list, bus, some st⟩
                | none => ⟨.error .raised, bus, some st⟩

/-! ## Derived notions and the scenario of the specification -/

/-- An attribute passes the scan of `test_policies`: it has a policy of its name,
and the first such policy is of kind unspecified or of the kind of the attribute. -/
def attr_ok (policies : List blobmsg_policy) (a : blob_attr) : Prop :=
  policy_scan a.name a.type policies = some true

instance (policies : List blobmsg_policy) (a : blob_attr) : Decidable (attr_ok policies a) := by
  unfold attr_ok; infer_instance

/-- The value a reply fragment decodes to in `ubus_python_call_handler`:
`blobmsg_format_json`, then `json.loads` on the text. -/
def fragment_value (env : Env) (msg : List blob_attr) : Option PyObject :=
  (env.blobmsg_format_json msg).bind env.json_loads

/-- The methods dictionary of the scenario: method "add" with the schema
`a: int32, b: int32` and a callable. -/
def calc_methods : PyObject :=
  .dict [(.str "add", .dict [
    (.str "signature", .dict [(.str "a", .int 5), (.str "b", .int 5)]),
    (.str "method", .callable 0)])]

/-- The object "calc" of the scenario as `add` registers it. -/
def calc_object : ubus_Object :=
  ⟨⟨"calc", [⟨"add", [⟨"a", BLOBMSG_TYPE_INT32⟩, ⟨"b", BLOBMSG_TYPE_INT32⟩]⟩]⟩, calc_methods⟩

/-- An int32 attribute. -/
def int32_attr (name data : String) : blob_attr := ⟨name, BLOBMSG_TYPE_INT32, data⟩

/-- Collaborators for the scenario: every allocation succeeds, the codec writes an
attribute as `name:data`, the bus knows the object "calc" only, sends every reply,
and delivers the fragments `sum:3` and `sum:4` to a call; the user callable
returns without replying. -/
def calc_env : Env where
  blobmsg_format_json := fun msg =>
    some (String.intercalate "," (msg.map (fun a => a.name ++ ":" ++ a.data)))
  PyUnicode_FromString := fun _ => true
  json_loads := fun s => some (.str s)
  json_dumps := fun data => match data with
    | .str s => some s
    | _ => none
  blobmsg_add_json_from_string := fun s => some [⟨"", BLOBMSG_TYPE_UNSPEC, s⟩]
  ResponseHandler_new := true
  Py_BuildValue := true
  PyObject_CallObject := fun _ _ => ⟨[], false, false⟩
  ubus_send_reply := fun _ _ _ => UBUS_STATUS_OK
  ubus_lookup_id := fun _ object =>
    if object = "calc" then (UBUS_STATUS_OK, 1) else (UBUS_STATUS_NOT_FOUND, 0)
  ubus_invoke := fun _ _ _ _ _ =>
    ([some [int32_attr "sum" "3"], some [int32_attr "sum" "4"]], UBUS_STATUS_OK)
  ubus_strerror := fun _ => "error"
  PyList_New := true
  PyList_Append := fun _ _ => true

/-- The scenario with a user callable that replies once and then raises. -/
def calc_env_reply_then_raise : Env :=
  { calc_env with PyObject_CallObject := fun _ _ => ⟨[[.str "sum:3"]], true, false⟩ }

/-- The scenario with a user callable that raises `SystemExit`. -/
def calc_env_system_exit : Env :=
  { calc_env with PyObject_CallObject := fun _ _ => ⟨[], true, true⟩ }

/-- The scenario with a bus that delivers the fragment `sum:?`, whose text
`json.loads` refuses, and then the fragment `sum:3`. -/
def calc_env_bad_fragment : Env :=
  { calc_env with
    json_loads := fun s => if s = "sum:?" then none else some (.str s)
    ubus_invoke := fun _ _ _ _ _ =>
      ([some [int32_attr "sum" "?"], some [int32_attr "sum" "3"]], UBUS_STATUS_OK) }

/-! ## Python values as `add` and `listen` inspect them -/

/-- Modelled from the spec: the last valid kind tag.  The enum `blobmsg_type` is declared
in libubox, outside the source file, where it ends with the tag of "double", 8, the tag
of "bool" being that of "int8". -/
def BLOBMSG_TYPE_LAST : Int := 8

/-- The least value of a C `long` where it has 64 bits, as on the LP64 platforms. -/
def LONG_MIN : Int := -9223372036854775808

/-- The greatest value of a C `long` where it has 64 bits. -/
def LONG_MAX : Int := 9223372036854775807

/-- The value of a `long` converted to `int` (32 bits, two's complement). -/
def C_int (x : Int) : Int := (x + 2147483648) % 4294967296 - 2147483648

/-- The check `PyStr_Check`. -/
def PyStr_Check : PyObject → Bool
  | .str _ => true
  | _ => false

/-- The check `PyInt_Check`, which is `PyLong_Check`: it holds of integers and of the
booleans, a subtype of the integers. -/
def PyInt_Check : PyObject → Bool
  | .int _ => true
  | .bool _ => true
  | _ => false

/-- The check `PyDict_Check`. -/
def PyDict_Check : PyObject → Bool
  | .dict _ => true
  | _ => false

/-- The check `PyTuple_Check`. -/
def PyTuple_Check : PyObject → Bool
  | .tuple _ => true
  | _ => false

/-- The check `PyCallable_Check`. -/
def PyCallable_Check : PyObject → Bool
  | .callable _ => true
  | _ => false

/-- The call `PyLong_AsLong(o)`: the integer when it fits a `long`, and -1, with an
exception set, when it does not or when `o` is no integer. -/
def PyLong_AsLong : PyObject → Int
  | .int n => if LONG_MIN ≤ n ∧ n ≤ LONG_MAX then n else -1
  | .bool b => if b then 1 else 0
  | _ => -1

/-- The call `PyUnicode_AsUTF8(o)` on a string; the module calls it on nothing else. -/
def PyUnicode_AsUTF8 : PyObject → String
  | .str s => s
  | _ => ""

/-- The pairs `PyDict_Next` walks through, in order; it yields nothing for an object
that is no dictionary. -/
def PyDict_Next (o : PyObject) : List (PyObject × PyObject) :=
  match o with
  | .dict items => items
  | _ => []

/-- The call `PyDict_Size(o)`; -1 for an object that is no dictionary. -/
def PyDict_Size (o : PyObject) : Int :=
  match o with
  | .dict items => items.length
  | _ => -1

/-! ## Validation of the methods table -/

/-- The body of the inner `while` of `test_methods_argument`: false is its
`return false`. -/
def test_signature_entry (entry : PyObject × PyObject) : Bool :=
  let signature_name := entry.1
  let signature_type := entry.2
  if !PyStr_Check signature_name then false
  else if !PyInt_Check signature_type then false
  else
    let type := C_int (PyLong_AsLong signature_type)
    if type < 0 ∨ type > BLOBMSG_TYPE_LAST then false
    else true

/-- The body of the outer `while` of `test_methods_argument`: false is its
`return false`. -/
def test_method_entry (entry : PyObject × PyObject) : Bool :=
  let method_name := entry.1
  let value := entry.2
  if !PyStr_Check method_name then false
  else if !PyDict_Check value then false
  else if PyDict_Size value ≠ 2 then false
  else
    match PyDict_GetItemString value "signature" with
    | none => false
    | some signature =>
      if !PyDict_Check signature then false
      else if !(PyDict_Next signature).all test_signature_entry then false
      else
        match PyDict_GetItemString value "method" with
        | none => false
        | some method => PyCallable_Check method

/-- The function `test_methods_argument(methods)`; `methods` is never `NULL` after the
argument tuple is parsed. -/
def test_methods_argument (methods : PyObject) : Bool :=
  (PyDict_Next methods).all test_method_entry

/-! ## Module state and further collaborators -/

/-- A listener (`ubus_Listener`): its event handler, named by the event pattern it is
registered under, and the Python callback. -/
structure ubus_Listener where
  event : String
  callback : PyObject

/-- A pointer held in the array `objects`: the object it points at, and whether that
object has been freed by `free_ubus_object`. -/
structure ObjectEntry where
  target : ubus_Object
  freed : Bool

/-- The global variables of the module.  An array and its size are one list: `listeners`
holds the entries below `listerners_size` and `objects` those below `objects_size`, what
lies in the allocated arrays beyond the sizes being never read. -/
structure Module where
  python_alloc_list : Option (List PyObject)
  socket_path : Option String
  listeners : List ubus_Listener
  objects : List ObjectEntry
  ctx : Option ubus_context
  /-- Whether a freed object has been used. -/
  fault : Bool

/-- The variable `objects_size`. -/
def Module.objects_size (st : Module) : Nat := st.objects.length

/-- The variable `listerners_size`. -/
def Module.listerners_size (st : Module) : Nat := st.listeners.length

/-- The state the module is loaded with. -/
def Module.initial : Module := ⟨none, none, [], [], none, false⟩

/-- The places where the module allocates and tests the result. -/
inductive AllocSite where
  /-- The call `PyList_New(0)` in `connect`. -/
  | alloc_list
  /-- The call `strdup` on the socket path in `connect`. -/
  | socket_path
  /-- The call `PyList_Append(python_alloc_list, event)` for the pair of this index. -/
  | keep_event (i : Nat)
  /-- The call `PyList_Append(python_alloc_list, callback)` for the pair of this index. -/
  | keep_callback (i : Nat)
  /-- The `calloc` of the listener for the pair of this index. -/
  | listener (i : Nat)
  /-- The `realloc` of `listeners` for the pair of this index. -/
  | listeners (i : Nat)
  /-- The `calloc` of the `ubus_Object`. -/
  | object
  /-- The `calloc` of the method table. -/
  | methods
  /-- The `calloc` of the policy array of the method of this index. -/
  | policy (i : Nat)
  /-- The `calloc` of the object type. -/
  | type
  /-- The `realloc` of `objects`. -/
  | objects
  /-- The call `PyList_Append(python_alloc_list, object_name)`. -/
  | keep_name
  /-- The call `PyList_Append(python_alloc_list, methods)`. -/
  | keep_methods
  /-- The call `PyDict_New()` in `objects`. -/
  | dict
  /-- The calls `PyUnicode_FromFormat` and `PyUnicode_Concat` on the signature text. -/
  | text (s : String)
  /-- The call `PyDict_SetItem` under this path. -/
  | dict_item (path : String)
  deriving DecidableEq, Repr

/-- What `ubus_lookup` hands to its callback for one object (`struct ubus_object_data`). -/
structure ubus_object_data where
  path : String
  signature : Option (List blob_attr)

/-- The collaborators of the whole module: those of dispatch and call, the outcome of
every allocation, and the further requests to the bus library. -/
structure Runtime extends Env where
  /-- Whether the allocation at this place succeeds. -/
  alloc : AllocSite → Bool
  /-- The call `ubus_connect(socket_path)`; `none` is `NULL`. -/
  ubus_connect : String → Option ubus_context
  /-- The status of `ubus_add_object(ctx, object)`. -/
  ubus_add_object : ubus_context → ubus_object → ubus_msg_status
  /-- The status of `ubus_register_event_handler(ctx, handler, event)` for the pair of
  the given index in the arguments of `listen`. -/
  ubus_register_event_handler : ubus_context → Nat → String → ubus_msg_status
  /-- The status of `ubus_send_event(ctx, event, msg)`. -/
  ubus_send_event : ubus_context → String → List blob_attr → ubus_msg_status
  /-- The call `ubus_lookup(ctx, path, cb, priv)`: the objects it passes to `cb`, in
  order, and the status it returns. -/
  ubus_lookup : ubus_context → String → List ubus_object_data × ubus_msg_status
  /-- The call `blobmsg_format_json(cur, false)` on one attribute; `none` is `NULL`. -/
  blobmsg_format_json_attr : blob_attr → Option String

/-- Outcome of an entry point of the module: the value returned or the exception set,
the module state afterwards, and the requests made to the bus. -/
structure OpResult where
  ret : Except PyErr PyObject
  state : Module
  bus : List BusOp

/-- The text of `MSG_ALREADY_CONNECTED`. -/
def MSG_ALREADY_CONNECTED : String := "You are already connected to ubus."

/-- The text of `MSG_ALLOCATION_FAILS`. -/
def MSG_ALLOCATION_FAILS : String := "Failed to allocate memory!"

/-- The text of `MSG_LISTEN_TUPLE_EXPECTED`. -/
def MSG_LISTEN_TUPLE_EXPECTED : String := "Expected (event, callback) tuple"

/-- The text of `MSG_ADD_SIGNATURE_INVALID`. -/
def MSG_ADD_SIGNATURE_INVALID : String :=
  "Incorrect method arguments!\nExpected:\n\t(<obj_name>, \x7b <method_name>: " ++
  "\x7b\x27signature\x27: <method_signature>, \x27method\x27: <callable>\x7d, ...\x7d)"

/-- The text of `DEFAULT_SOCKET`, as the source defines `UBUS_UNIX_SOCKET` when the
library does not. -/
def DEFAULT_SOCKET : String := "/var/run/ubus/ubus.sock"

/-- The exception `NotConnected` with which a guarded entry point returns. -/
def not_connected (st : Module) : OpResult :=
  ⟨.error (.RuntimeError MSG_NOT_CONNECTED), st, []⟩

/-! ## Connection Lifecycle -/

/-- The function `dispose_connection(deregister)`: the state it leaves and the requests
it makes.  An entry of `objects` already freed is freed again, which `fault` records. -/
def dispose_connection (st : Module) (deregister : Bool) : Module × List BusOp :=
  let bus :=
    match st.ctx with
    | some ctx =>
      (if deregister then
        st.objects.map (fun o => BusOp.remove_object ctx o.target.object)
          ++ st.listeners.map (fun l => BusOp.unregister_event_handler ctx l.event)
      else [])
        ++ [BusOp.free ctx]
    | none => []
  (⟨none, none, [], [], none, st.fault || st.objects.any (fun o => o.freed)⟩,
    bus ++ [BusOp.uloop_done])

/-- The function `ubus_python_disconnect(module, args, kwargs)`; the format `"|O!"` takes
no argument or one boolean. -/
def ubus_python_disconnect (st : Module) (args : List PyObject) : OpResult :=
  if st.ctx.isNone then not_connected st
  else
    let parsed : Option Bool :=
      match args with
      | [] => some true
      | [.bool b] => some b
      | _ => none
    match parsed with
    | none => ⟨.error .raised, st, []⟩
    | some deregister =>
      let (st, bus) := dispose_connection st deregister
      ⟨.ok .None, st, bus⟩

/-- The function `ubus_python_connect(module, args, kwargs)`; the format `"|s"` takes no
argument or one string, which it stores in the global `socket_path` at once. -/
def ubus_python_connect (rt : Runtime) (st : Module) (args : List PyObject) : OpResult :=
  if st.ctx.isSome then ⟨.error (.RuntimeError MSG_ALREADY_CONNECTED), st, []⟩
  else
    let parsed : Option (Option String) :=
      match args with
      | [] => some st.socket_path
      | [.str path] => some (some path)
      | _ => none
    match parsed with
    | none => ⟨.error .raised, st, []⟩
    | some socket_path =>
      let st := { st with socket_path := socket_path }
      if !rt.alloc .alloc_list then ⟨.error .raised, { st with python_alloc_list := none }, []⟩
      else
        let st := { st with python_alloc_list := some [] }
        if !rt.alloc .socket_path then
          ⟨.error (.MemoryError MSG_ALLOCATION_FAILS), st, []⟩
        else
          let path := socket_path.getD DEFAULT_SOCKET
          let st := { st with socket_path := some path, listeners := [], objects := [] }
          match rt.ubus_connect path with
          | none =>
            let (st, bus) := dispose_connection st true
            ⟨.error (.IOError ("Failed to connect to the ubus socket \x27" ++ path ++ "\x27\n")),
              st, BusOp.connect path :: bus⟩
          | some ctx =>
            ⟨.ok (.bool true), { st with ctx := some ctx },
              [BusOp.connect path, BusOp.add_uloop ctx]⟩

/-- The function `ubus_python_get_connected`. -/
def ubus_python_get_connected (st : Module) : PyObject := .bool st.ctx.isSome

/-- The function `ubus_python_get_socket_path`: the path, or `None`. -/
def ubus_python_get_socket_path (st : Module) : PyObject :=
  match st.socket_path with
  | some path => .str path
  | none => .None

/-! ## Event Bus -/

/-- The function `ubus_python_send(module, args, kwargs)`; the format `"sO"` takes a
string and any object. -/
def ubus_python_send (rt : Runtime) (st : Module) (args : List PyObject) : OpResult :=
  match st.ctx with
  | none => not_connected st
  | some ctx =>
    match args with
    | [.str event, data] =>
      match rt.json_dumps data with
      | none => ⟨.error .raised, st, []⟩
      | some json_str =>
        match rt.blobmsg_add_json_from_string json_str with
        | none => ⟨.error (.TypeError MSG_JSON_TO_UBUS_FAILED), st, []⟩
        | some python_buf =>
          let retval := rt.ubus_send_event ctx event python_buf
          ⟨.ok (.bool (retval == UBUS_STATUS_OK)), st, [BusOp.send_event ctx event python_buf]⟩
    | _ => ⟨.error .raised, st, []⟩

/-- The tests of the first loop of `ubus_python_listen` on one argument: a tuple of
two items, a string and a callable.  `PySequence_Fast` returns a tuple as it is. -/
def test_listen_item (item : PyObject) : Bool :=
  match item with
  | .tuple item_tuple =>
    if item_tuple.length ≠ 2 then false
    else
      match item_tuple with
      | [event, callback] => PyStr_Check event && PyCallable_Check callback
      | _ => false
  | _ => false

/-- The call `PyList_Append(python_alloc_list, item)`, which keeps a reference of the
caller alive; `none` is its failure. -/
def keep_reference (rt : Runtime) (site : AllocSite) (st : Module) (item : PyObject) :
    Option Module :=
  match st.python_alloc_list with
  | none => none
  | some list =>
    if rt.alloc site then some { st with python_alloc_list := some (list ++ [item]) }
    else none

/-- The second loop of `ubus_python_listen` from the pair of index `i` on, over the
arguments left.  An exception in the result is the jump to `listen_error1`, at which the
pairs registered so far stay as they are.  The first loop has found every argument to be
a pair. -/
def listen_add_callbacks (rt : Runtime) (ctx : ubus_context) :
    List PyObject → Nat → Module → List BusOp → Option PyErr × Module × List BusOp
  | [], _, st, bus => (none, st, bus)
  | item :: rest, i, st, bus =>
    match item with
    | .tuple [event, callback] =>
      match keep_reference rt (.keep_event i) st event with
      | none => (some .raised, st, bus)
      | some st =>
        match keep_reference rt (.keep_callback i) st callback with
        | none => (some .raised, st, bus)
        | some st =>
          if !rt.alloc (.listener i) then
            (some (.MemoryError MSG_ALLOCATION_FAILS), st, bus)
          else
            let listener : ubus_Listener := ⟨PyUnicode_AsUTF8 event, callback⟩
            if !rt.alloc (.listeners i) then (some .raised, st, bus)
            else
              let st1 := { st with listeners := st.listeners ++ [listener] }
              let retval := rt.ubus_register_event_handler ctx i (PyUnicode_AsUTF8 event)
              let bus := bus ++ [BusOp.register_event_handler ctx (PyUnicode_AsUTF8 event)]
              if retval ≠ UBUS_STATUS_OK then
                listen_add_callbacks rt ctx rest (i + 1)
                  { st1 with listeners := st1.listeners.dropLast } bus
              else
                listen_add_callbacks rt ctx rest (i + 1) st1 bus
    | _ => (some .raised, st, bus)

/-- The function `ubus_python_listen(module, args, kwargs)` on its positional
arguments, which the interpreter hands over as a tuple. -/
def ubus_python_listen (rt : Runtime) (st : Module) (args : List PyObject) : OpResult :=
  match st.ctx with
  | none => not_connected st
  | some ctx =>
    if args.length = 0 then
      ⟨.error (.TypeError "You need to set at least one event."), st, []⟩
    else if !args.all test_listen_item then
      ⟨.error (.TypeError MSG_LISTEN_TUPLE_EXPECTED), st, []⟩
    else
      match listen_add_callbacks rt ctx args 0 st [] with
      | (some e, st, bus) => ⟨.error e, st, bus⟩
      | (none, st, bus) => ⟨.ok .None, st, bus⟩

/-- The function `ubus_python_loop(module, args, kwargs)`; the format `"|i"` takes no
argument or one integer in the range of a C `int`.  The callbacks the event loop runs
meanwhile are dispatches of their own. -/
def ubus_python_loop (st : Module) (args : List PyObject) : OpResult :=
  match st.ctx with
  | none => not_connected st
  | some ctx =>
    let parsed : Option Int :=
      match args with
      | [] => some (-1)
      | [.int t] => if t < -2147483648 ∨ 2147483647 < t then none else some t
      | _ => none
    match parsed with
    | none => ⟨.error .raised, st, []⟩
    | some timeout =>
      if timeout = 0 then ⟨.ok .None, st, [BusOp.handle_event ctx]⟩
      else if timeout > 0 then
        ⟨.ok .None, st, [BusOp.uloop_init, BusOp.uloop_timeout_set timeout, BusOp.uloop_run,
          BusOp.uloop_timeout_cancel]⟩
      else ⟨.ok .None, st, [BusOp.uloop_init, BusOp.uloop_run]⟩

/-! ## Object Registry -/

/-- The policy array `ubus_python_add` fills from a `signature` dictionary.  The kind is
stored in an `enum blobmsg_type`, which has the width of an `int`. -/
def signature_policies (signature : PyObject) : List blobmsg_policy :=
  (PyDict_Next signature).map
    (fun entry => ⟨PyUnicode_AsUTF8 entry.1, C_int (PyLong_AsLong entry.2)⟩)

/-- The loop of `ubus_python_add` over the methods dictionary from the method of index
`i` on; `none` is a failed `calloc` of a policy array. -/
def add_methods (rt : Runtime) : List (PyObject × PyObject) → Nat → Option (List ubus_method)
  | [], _ => some []
  | (method_name, value) :: rest, i =>
    let signature := (PyDict_GetItemString value "signature").getD .None
    if !rt.alloc (.policy i) then none
    else
      match add_methods rt rest (i + 1) with
      | none => none
      | some ubus_methods =>
        some (⟨PyUnicode_AsUTF8 method_name, signature_policies signature⟩ :: ubus_methods)

/-- The function `ubus_python_add(module, args, kwargs)`; the format `"OO"` takes two
objects.  A `methods` that is no dictionary has size -1 and gets no method table. -/
def ubus_python_add (rt : Runtime) (st : Module) (args : List PyObject) : OpResult :=
  match st.ctx with
  | none => not_connected st
  | some ctx =>
    match args with
    | [object_name, methods] =>
      if !PyStr_Check object_name then ⟨.error (.TypeError MSG_ADD_SIGNATURE_INVALID), st, []⟩
      else if !test_methods_argument methods then
        ⟨.error (.TypeError MSG_ADD_SIGNATURE_INVALID), st, []⟩
      else if !rt.alloc .object then ⟨.error (.MemoryError MSG_ALLOCATION_FAILS), st, []⟩
      else
        let n_methods := PyDict_Size methods
        let built : Option (List ubus_method) :=
          if n_methods > 0 then
            if !rt.alloc .methods then none
            else add_methods rt (PyDict_Next methods) 0
          else some []
        match built with
        | none => ⟨.error (.MemoryError MSG_ALLOCATION_FAILS), st, []⟩
        | some ubus_methods =>
          if !rt.alloc .type then ⟨.error (.MemoryError MSG_ALLOCATION_FAILS), st, []⟩
          else if !rt.alloc .objects then
            ⟨.error (.MemoryError MSG_ALLOCATION_FAILS), st, []⟩
          else
            let object : ubus_Object := ⟨⟨PyUnicode_AsUTF8 object_name, ubus_methods⟩, methods⟩
            let st1 := { st with objects := st.objects ++ [⟨object, false⟩] }
            let ret := rt.ubus_add_object ctx object.object
            let bus := [BusOp.add_object ctx object.object]
            if ret ≠ UBUS_STATUS_OK then
              ⟨.error (.RuntimeError ("ubus error occured: " ++ rt.ubus_strerror ret)),
                { st1 with objects := st1.objects.dropLast }, bus⟩
            else
              match keep_reference rt .keep_name st1 object_name with
              | none =>
                ⟨.error .raised, { st1 with objects := st.objects ++ [⟨object, true⟩] },
                  bus ++ [BusOp.remove_object ctx object.object]⟩
              | some st2 =>
                match keep_reference rt .keep_methods st2 methods with
                | none =>
                  ⟨.error .raised,
                    { st2 with
                      objects := st.objects ++ [⟨object, true⟩]
                      python_alloc_list := st2.python_alloc_list.map List.dropLast },
                    bus ++ [BusOp.remove_object ctx object.object]⟩
                | some st3 => ⟨.ok .None, st3, bus⟩
    | _ => ⟨.error .raised, st, []⟩

/-- The call `PyDict_SetItem(dict, key, value)` on the items of a dictionary whose keys
are strings. -/
def PyDict_SetItem (items : List (PyObject × PyObject)) (key : String) (value : PyObject) :
    List (PyObject × PyObject) :=
  if items.any (fun kv => PyUnicode_AsUTF8 kv.1 == key) then
    items.map (fun kv => if PyUnicode_AsUTF8 kv.1 == key then (kv.1, value) else kv)
  else items ++ [(.str key, value)]

/-- The `blob_for_each_attr` loop of `ubus_python_objects_handler`: the signature text
after the attributes left are added; `none` is the jump to `object_handler_cleanup` or
the early `return`. -/
def objects_signature_text (rt : Runtime) :
    List blob_attr → Bool → String → Option String
  | [], _, str_signatures => some str_signatures
  | cur :: rest, first, str_signatures =>
    match rt.blobmsg_format_json_attr cur with
    | none => none
    | some s =>
      let str_signature := if first then s else " ," ++ s
      let made := if first then rt.PyUnicode_FromString s else rt.alloc (.text str_signature)
      if !made then none
      else if !rt.alloc (.text (str_signatures ++ str_signature)) then none
      else objects_signature_text rt rest false (str_signatures ++ str_signature)

/-- The function `ubus_python_objects_handler(c, o, p)` on the items of the dictionary
behind `p`. -/
def ubus_python_objects_handler (rt : Runtime) (objects : List (PyObject × PyObject))
    (o : ubus_object_data) : List (PyObject × PyObject) :=
  if !rt.PyUnicode_FromString "\x7b" then objects
  else
    match objects_signature_text rt (o.signature.getD []) true "\x7b" with
    | none => objects
    | some str_signatures =>
      if !rt.alloc (.text (str_signatures ++ "\x7d")) then objects
      else
        match rt.json_loads (str_signatures ++ "\x7d") with
        | none => objects
        | some json_signatures =>
          if !rt.PyUnicode_FromString o.path then objects
          else if !rt.alloc (.dict_item o.path) then objects
          else PyDict_SetItem objects o.path json_signatures

/-- The function `ubus_python_objects(module, args, kwargs)`; the format `"|s"` takes no
argument or one string. -/
def ubus_python_objects (rt : Runtime) (st : Module) (args : List PyObject) : OpResult :=
  match st.ctx with
  | none => not_connected st
  | some ctx =>
    let parsed : Option String :=
      match args with
      | [] => some "*"
      | [.str ubus_path] => some ubus_path
      | _ => none
    match parsed with
    | none => ⟨.error .raised, st, []⟩
    | some ubus_path =>
      if !rt.alloc .dict then ⟨.error .raised, st, []⟩
      else
        let (found, retval) := rt.ubus_lookup ctx ubus_path
        let res := found.foldl (ubus_python_objects_handler rt) []
        let bus := [BusOp.lookup ctx ubus_path]
        if retval = UBUS_STATUS_OK ∨ retval = UBUS_STATUS_NOT_FOUND then
          ⟨.ok (.dict res), st, bus⟩
        else
          ⟨.error (.RuntimeError ("ubus error occured: " ++ rt.ubus_strerror retval)),
            st, bus⟩

/-! ## The scenario, continued -/

/-- Collaborators for the scenario: those of `calc_env`, every allocation succeeds, and
the bus opens the transport, accepts every registration and event, and lists no object. -/
def calc_runtime : Runtime where
  toEnv := calc_env
  alloc := fun _ => true
  ubus_connect := fun _ => some 1
  ubus_add_object := fun _ _ => UBUS_STATUS_OK
  ubus_register_event_handler := fun _ _ _ => UBUS_STATUS_OK
  ubus_send_event := fun _ _ _ => UBUS_STATUS_OK
  ubus_lookup := fun _ _ => ([], UBUS_STATUS_OK)
  blobmsg_format_json_attr := fun a => some (a.name ++ ":" ++ a.data)

/-- The scenario where the interpreter cannot keep the reference to the object name. -/
def calc_runtime_no_keep : Runtime :=
  { calc_runtime with alloc := fun site => decide (site ≠ AllocSite.keep_name) }

/-- The scenario with a bus that rejects the registration of the second listener of a
call (index 1), and finds no object on a lookup. -/
def calc_runtime_rejecting : Runtime :=
  { calc_runtime with
    ubus_register_event_handler := fun _ i _ =>
      if i = 1 then UBUS_STATUS_UNKNOWN_ERROR else UBUS_STATUS_OK
    ubus_lookup := fun _ _ => ([], UBUS_STATUS_NOT_FOUND) }

/-- The scenario with a bus that cannot open the transport. -/
def calc_runtime_no_transport : Runtime :=
  { calc_runtime with ubus_connect := fun _ => none }

/-- The state after a successful `connect()`: connected on the default socket, with
nothing registered. -/
def connected_state : Module := ⟨some [], some DEFAULT_SOCKET, [], [], some 1, false⟩

/-- A methods dictionary whose schema gives the argument `a` the kind tag 4294967299,
which is 3 plus two to the 32. -/
def wide_kind_methods : PyObject :=
  .dict [(.str "add", .dict [
    (.str "signature", .dict [(.str "a", .int 4294967299)]),
    (.str "method", .callable 0)])]

/-- A methods dictionary whose schema gives the argument `a` the kind tag `kind`. -/
def kind_methods (kind : Int) : PyObject :=
  .dict [(.str "add", .dict [
    (.str "signature", .dict [(.str "a", .int kind)]),
    (.str "method", .callable 0)])]

/-- A connected state with two objects, "calc" and "log", and two listeners, on
"net.up" and "net.down", registered. -/
def busy_state : Module :=
  ⟨some [.str "calc", calc_methods, .str "log", .dict [], .str "net.up", .callable 1,
      .str "net.down", .callable 2],
    some DEFAULT_SOCKET,
    [⟨"net.up", .callable 1⟩, ⟨"net.down", .callable 2⟩],
    [⟨calc_object, false⟩, ⟨⟨⟨"log", []⟩, .dict []⟩, false⟩],
    some 1, false⟩

/-- The listeners of those pairs, among the arguments of a `listen` from index `i` on,
whose registration the bus accepts: in argument order, each with its own callback. -/
def accepted_listeners (rt : Runtime) (ctx : ubus_context) :
    List PyObject → Nat → List ubus_Listener
  | [], _ => []
  | .tuple [.str event, callback] :: rest, i =>
    if rt.ubus_register_event_handler ctx i event = UBUS_STATUS_OK then
      ⟨event, callback⟩ :: accepted_listeners rt ctx rest (i + 1)
    else accepted_listeners rt ctx rest (i + 1)
  | _ :: rest, i => accepted_listeners rt ctx rest (i + 1)

/-- One registration request per pair among the arguments of a `listen`, in argument
order. -/
def attempted_registrations (ctx : ubus_context) : List PyObject → List BusOp
  | [] => []
  | .tuple [.str event, _] :: rest =>
    BusOp.register_event_handler ctx event :: attempted_registrations ctx rest
  | _ :: rest => attempted_registrations ctx rest

/-- The module states that `connect`, `disconnect`, `add` and `listen` calls lead to from
the initial state, with any arguments and any collaborators at each call; a `connect`
gets the memory it asks for, and opens the transport or fails to. -/
inductive Reachable : Module → Prop where
  | initial : Reachable Module.initial
  | connect (rt : Runtime) (st : Module) (args : List PyObject) :
      Reachable st → rt.alloc .alloc_list = true → rt.alloc .socket_path = true →
      Reachable (ubus_python_connect rt st args).state
  | disconnect (st : Module) (args : List PyObject) :
      Reachable st → Reachable (ubus_python_disconnect st args).state
  | add (rt : Runtime) (st : Module) (args : List PyObject) :
      Reachable st → Reachable (ubus_python_add rt st args).state
  | listen (rt : Runtime) (st : Module) (args : List PyObject) :
      Reachable st → Reachable (ubus_python_listen rt st args).state

/-- The invariant of the connection lifecycle: a socket path is stored exactly while
connected, and both registries are empty while disconnected. -/
def lifecycle_invariant (st : Module) : Prop :=
  (st.socket_path.isSome ↔ st.ctx.isSome) ∧
  (st.ctx = none → st.objects = [] ∧ st.listeners = [])

/-! ## Lemmas on the validator -/

theorem policy_scan_eq_none (name : String) (type : Int) (ps : List blobmsg_policy) :
    policy_scan name type ps = none ↔ ∀ p ∈ ps, p.name ≠ name := by
  induction ps with
  | nil => simp [policy_scan]
  | cons p rest ih =>
    unfold policy_scan
    by_cases h : name = p.name
    · subst h
      by_cases hk : p.type ≠ BLOBMSG_TYPE_UNSPEC ∧ p.type ≠ type <;> simp [hk]
    · simp only [h, if_false, ih, List.mem_cons, forall_eq_or_imp]
      constructor
      · intro hr; exact ⟨fun e => h e.symm, hr⟩
      · intro hr; exact hr.2

theorem policy_scan_find (name : String) (type : Int) (ps : List blobmsg_policy) :
    policy_scan name type ps =
      (ps.find? (fun p => decide (p.name = name))).map
        (fun p => decide (p.type = BLOBMSG_TYPE_UNSPEC ∨ p.type = type)) := by
  induction ps with
  | nil => rfl
  | cons p rest ih =>
    unfold policy_scan
    by_cases h : name = p.name
    · subst h
      by_cases hk : p.type ≠ BLOBMSG_TYPE_UNSPEC ∧ p.type ≠ type
      · have : ¬ (p.type = BLOBMSG_TYPE_UNSPEC ∨ p.type = type) := by tauto
        simp [hk, this]
      · have : p.type = BLOBMSG_TYPE_UNSPEC ∨ p.type = type := by tauto
        simp [hk, this]
    · have h2 : ¬ p.name = name := fun e => h e.symm
      simp [h, h2, ih]

theorem test_policies_loop_some (policies : List blobmsg_policy) (args : List blob_attr)
    (c : Nat) (h : ∀ a ∈ args, attr_ok policies a) :
    test_policies_loop policies args c = some (c + args.length) := by
  induction args generalizing c with
  | nil => simp [test_policies_loop]
  | cons a rest ih =>
    have ha : policy_scan a.name a.type policies = some true := h a (List.mem_cons_self _ _)
    have hr : ∀ b ∈ rest, attr_ok policies b := fun b hb => h b (List.mem_cons_of_mem _ hb)
    simp only [test_policies_loop, ha, ih (c + 1) hr, List.length_cons]
    congr 1; omega

theorem test_policies_loop_none (policies : List blobmsg_policy) (args : List blob_attr)
    (c : Nat) (h : ¬ ∀ a ∈ args, attr_ok policies a) :
    test_policies_loop policies args c = none := by
  induction args generalizing c with
  | nil => exact absurd (fun a ha => by cases ha) h
  | cons a rest ih =>
    unfold test_policies_loop
    by_cases ha : policy_scan a.name a.type policies = some true
    · have hr : ¬ ∀ b ∈ rest, attr_ok policies b := by
        intro hall
        apply h
        intro b hb
        rcases List.mem_cons.mp hb with rfl | hb
        · exact ha
        · exact hall b hb
      simp only [ha]
      exact ih (c + 1) hr
    · match hs : policy_scan a.name a.type policies with
      | some true => exact absurd hs ha
      | some false => rfl
      | none => rfl

theorem test_policies_iff (policies : List blobmsg_policy) (args : List blob_attr) :
    test_policies policies args = true ↔
      (∀ a ∈ args, attr_ok policies a) ∧ args.length = policies.length := by
  unfold test_policies
  by_cases h : ∀ a ∈ args, attr_ok policies a
  · rw [test_policies_loop_some policies args 0 h]
    simp only [Nat.zero_add, beq_iff_eq]
    exact ⟨fun e => ⟨h, e⟩, fun e => e.2⟩
  · rw [test_policies_loop_none policies args 0 h]
    constructor
    · intro e; cases e
    · intro e; exact absurd e.1 h

/-- Acceptance by `test_policies`, in terms of the first policy of each attribute's
name and of the two counts. -/
theorem test_policies_iff_find (policies : List blobmsg_policy) (args : List blob_attr) :
    test_policies policies args = true ↔
      (∀ a ∈ args, ∃ p ∈ policies, p.name = a.name) ∧
      (∀ a ∈ args, ∀ p, policies.find? (fun q => decide (q.name = a.name)) = some p →
        p.type = BLOBMSG_TYPE_UNSPEC ∨ p.type = a.type) ∧
      args.length = policies.length := by
  rw [test_policies_iff]
  have key : ∀ a : blob_attr, attr_ok policies a ↔
      (∃ p ∈ policies, p.name = a.name) ∧
      (∀ p, policies.find? (fun q => decide (q.name = a.name)) = some p →
        p.type = BLOBMSG_TYPE_UNSPEC ∨ p.type = a.type) := by
    intro a
    unfold attr_ok
    rw [policy_scan_find]
    cases hf : policies.find? (fun q => decide (q.name = a.name)) with
    | none =>
      simp only [Option.map_none']
      constructor
      · intro h; cases h
      · rintro ⟨⟨p, hp, hn⟩, _⟩
        have := List.find?_eq_none.mp hf p hp
        simp [hn] at this
    | some q =>
      have hq := List.find?_some hf
      have hmem := List.mem_of_find?_eq_some hf
      simp only [decide_eq_true_eq] at hq
      simp only [Option.map_some', Option.some.injEq, decide_eq_true_eq]
      constructor
      · intro hk
        exact ⟨⟨q, hmem, hq⟩, fun p hp => by cases hp; exact hk⟩
      · intro hk
        exact hk.2 q rfl
  constructor
  · rintro ⟨hall, hlen⟩
    exact ⟨fun a ha => ((key a).mp (hall a ha)).1, fun a ha => ((key a).mp (hall a ha)).2, hlen⟩
  · rintro ⟨h1, h2, hlen⟩
    exact ⟨fun a ha => (key a).mpr ⟨h1 a ha, h2 a ha⟩, hlen⟩

/-- Attributes that carry exactly the declared names, each with a kind its policy
allows, pass `test_policies`. -/
theorem test_policies_of_exact (policies : List blobmsg_policy) (msg : List blob_attr)
    (hperm : (msg.map (fun a => a.name)).Perm (policies.map (fun p => p.name)))
    (hkind : ∀ a ∈ msg, ∀ p ∈ policies, p.name = a.name →
      p.type = BLOBMSG_TYPE_UNSPEC ∨ p.type = a.type) :
    test_policies policies msg = true := by
  rw [test_policies_iff_find]
  refine ⟨?_, ?_, ?_⟩
  · intro a ha
    have h1 : a.name ∈ msg.map (fun a => a.name) := List.mem_map_of_mem _ ha
    have h2 : a.name ∈ policies.map (fun p => p.name) := hperm.subset h1
    obtain ⟨p, hp, hn⟩ := List.mem_map.mp h2
    exact ⟨p, hp, hn⟩
  · intro a ha p hf
    have hq := List.find?_some hf
    simp only [decide_eq_true_eq] at hq
    exact hkind a ha p (List.mem_of_find?_eq_some hf) hq
  · have := hperm.length_eq
    simpa using this

/-- When no attribute name repeats, acceptance by `test_policies` means the attribute
names are the declared names, each once. -/
theorem test_policies_exact_of_nodup (policies : List blobmsg_policy) (args : List blob_attr)
    (ha : (args.map (fun a => a.name)).Nodup)
    (h : test_policies policies args = true) :
    (args.map (fun a => a.name)).Perm (policies.map (fun p => p.name)) := by
  obtain ⟨h1, _, hlen⟩ := (test_policies_iff_find policies args).mp h
  have hsub : args.map (fun a => a.name) ⊆ policies.map (fun p => p.name) := by
    intro n hn
    obtain ⟨a, ha, rfl⟩ := List.mem_map.mp hn
    obtain ⟨p, hp, hpn⟩ := h1 a ha
    exact List.mem_map.mpr ⟨p, hp, hpn⟩
  exact (List.subperm_of_subset ha hsub).perm_of_length_le (by simp [hlen])

/-! ## Claims on the validator -/

/-- C1 (the code at the failing input): with the declared schema `a: int32, b: int32`,
whose names are distinct, `test_policies` accepts the attribute list `a, a`, although
the declared name `b` is missing from the attributes. -/
theorem test_policies_accepts_repeated_name :
    (([⟨"a", BLOBMSG_TYPE_INT32⟩, ⟨"b", BLOBMSG_TYPE_INT32⟩] : List blobmsg_policy).map
        (fun p => p.name)).Nodup ∧
    test_policies [⟨"a", BLOBMSG_TYPE_INT32⟩, ⟨"b", BLOBMSG_TYPE_INT32⟩]
        [⟨"a", BLOBMSG_TYPE_INT32, "1"⟩, ⟨"a", BLOBMSG_TYPE_INT32, "2"⟩] = true ∧
    ¬ ∃ a ∈ ([⟨"a", BLOBMSG_TYPE_INT32, "1"⟩, ⟨"a", BLOBMSG_TYPE_INT32, "2"⟩] : List blob_attr),
        a.name = "b" := by
  decide

/-- C2: `test_policies` returns true exactly when (a) every attribute has a policy
entry of its name, (b) for every attribute the first policy entry of its name is of
kind unspecified or of the attribute's kind, and (c) there are as many attributes as
declared policies. -/
theorem test_policies_true_iff (policies : List blobmsg_policy) (args : List blob_attr) :
    test_policies policies args = true ↔
      (∀ a ∈ args, ∃ p ∈ policies, p.name = a.name) ∧
      (∀ a ∈ args, ∀ p, policies.find? (fun q => decide (q.name = a.name)) = some p →
        p.type = BLOBMSG_TYPE_UNSPEC ∨ p.type = a.type) ∧
      args.length = policies.length :=
  test_policies_iff_find policies args

/-! ## Lemmas on the dispatch -/

/-- The dispatch up to the call of the user callable, when every step before it
succeeds. -/
theorem method_handler_reaches_call (env : Env) (ctx_global : Option ubus_context)
    (ctx : ubus_context) (obj : ubus_Object) (req : ubus_request_data) (method : String)
    (msg : List blob_attr) (m : ubus_method) (python_method : PyObject) (str : String)
    (data_object : PyObject)
    (hm : obj.object.methods.find? (fun m => m.name == method) = some m)
    (ht : test_policies m.policy msg = true)
    (hd : PyDict_GetItemString obj.methods method = some python_method)
    (hf : env.blobmsg_format_json msg = some str)
    (hu : env.PyUnicode_FromString str = true)
    (hj : env.json_loads str = some data_object)
    (hn : env.ResponseHandler_new = true)
    (hb : env.Py_BuildValue = true) :
    ubus_python_method_handler env ctx_global ctx obj req method msg =
      if (env.PyObject_CallObject (PyDict_GetItemString python_method "method")
          data_object).raised then
        if (env.PyObject_CallObject (PyDict_GetItemString python_method "method")
            data_object).system_exit then
          ⟨UBUS_STATUS_OK, [(PyDict_GetItemString python_method "method", data_object)],
            run_replies env ctx_global ⟨some ctx, some req⟩
              (env.PyObject_CallObject (PyDict_GetItemString python_method "method")
                data_object).replies,
            none, 1, true⟩
        else
          ⟨UBUS_STATUS_UNKNOWN_ERROR,
            [(PyDict_GetItemString python_method "method", data_object)],
            run_replies env ctx_global ⟨some ctx, some req⟩
              (env.PyObject_CallObject (PyDict_GetItemString python_method "method")
                data_object).replies,
            some ⟨none, none⟩, 1, false⟩
      else
        ⟨UBUS_STATUS_OK, [(PyDict_GetItemString python_method "method", data_object)],
          run_replies env ctx_global ⟨some ctx, some req⟩
            (env.PyObject_CallObject (PyDict_GetItemString python_method "method")
              data_object).replies,
          some ⟨none, none⟩, 0, false⟩ := by
  unfold ubus_python_method_handler
  simp only [hm, ht, hd, hf, hu, hj, hn, hb, Bool.not_true, Bool.false_eq_true, if_false]

/-- A dispatch whose validation fails returns `UBUS_STATUS_INVALID_ARGUMENT`
without running a callable or touching the bus. -/
theorem method_handler_invalid_argument (env : Env) (ctx_global : Option ubus_context)
    (ctx : ubus_context) (obj : ubus_Object) (req : ubus_request_data) (method : String)
    (msg : List blob_attr) (m : ubus_method)
    (hm : obj.object.methods.find? (fun m => m.name == method) = some m)
    (ht : test_policies m.policy msg = false) :
    ubus_python_method_handler env ctx_global ctx obj req method msg =
      ⟨UBUS_STATUS_INVALID_ARGUMENT, [], [], none, 0, false⟩ := by
  unfold ubus_python_method_handler
  simp [hm, ht]

/-- The handle a dispatch leaves behind, if any, has both back-references cleared. -/
theorem method_handler_handle (env : Env) (ctx_global : Option ubus_context)
    (ctx : ubus_context) (obj : ubus_Object) (req : ubus_request_data) (method : String)
    (msg : List blob_attr) :
    (ubus_python_method_handler env ctx_global ctx obj req method msg).handler = none ∨
    (ubus_python_method_handler env ctx_global ctx obj req method msg).handler =
      some ⟨none, none⟩ := by
  unfold ubus_python_method_handler
  repeat' split
  all_goals first
    | (left; rfl)
    | (right; rfl)
    | (dsimp only; split_ifs <;> first | (left; rfl) | (right; rfl))

/-- A `reply` on a handle without back-references sets an exception and asks
nothing of the bus. -/
theorem reply_unlinked (env : Env) (ctx_global : Option ubus_context) (args : List PyObject) :
    (∃ e, (ubus_ResponseHandler_reply env ctx_global ⟨none, none⟩ args).ret = .error e) ∧
    (ubus_ResponseHandler_reply env ctx_global ⟨none, none⟩ args).bus = [] := by
  unfold ubus_ResponseHandler_reply
  repeat' split
  all_goals first
    | exact ⟨⟨_, rfl⟩, rfl⟩
    | (rename_i h _; cases h)

/-- C3 (the code at the failing input): for the registered method "add" with schema
`a: int32, b: int32`, the invocations with `a:1` and with `a:1, b:2, c:3` return
`UBUS_STATUS_INVALID_ARGUMENT` and run no callable, but the invocation with
`a:1, a:2`, which omits the declared argument `b`, returns `UBUS_STATUS_OK` after
running the user callable on the decoded arguments. -/
theorem method_handler_accepts_omitted_argument :
    ubus_python_method_handler calc_env (some 1) 1 calc_object 7 "add" [int32_attr "a" "1"] =
      ⟨UBUS_STATUS_INVALID_ARGUMENT, [], [], none, 0, false⟩ ∧
    ubus_python_method_handler calc_env (some 1) 1 calc_object 7 "add"
        [int32_attr "a" "1", int32_attr "b" "2", int32_attr "c" "3"] =
      ⟨UBUS_STATUS_INVALID_ARGUMENT, [], [], none, 0, false⟩ ∧
    (∀ a ∈ [int32_attr "a" "1", int32_attr "a" "2"], a.name ≠ "b") ∧
    ubus_python_method_handler calc_env (some 1) 1 calc_object 7 "add"
        [int32_attr "a" "1", int32_attr "a" "2"] =
      ⟨UBUS_STATUS_OK, [(some (.callable 0), .str "a:1,a:2")], [], some ⟨none, none⟩, 0,
        false⟩ := by
  refine ⟨rfl, rfl, by decide, rfl⟩

/-- C4: for a method in the table of a registered object, whose dictionary entry holds
the callable, and whose schema has distinct names: an invocation whose attributes carry
exactly the declared names, each once, in any order, each of the declared kind or of any
kind where the declared kind is unspecified, passes `test_policies`; and when the message
decodes and the handle and argument tuple are built, the dispatch runs that callable
exactly once, on the decoded arguments. -/
theorem matching_invocation_reaches_handler (env : Env) (ctx_global : Option ubus_context)
    (ctx : ubus_context) (obj : ubus_Object) (req : ubus_request_data) (method : String)
    (msg : List blob_attr) (m : ubus_method) (python_method callable : PyObject)
    (hm : obj.object.methods.find? (fun m => m.name == method) = some m)
    (hd : PyDict_GetItemString obj.methods method = some python_method)
    (hc : PyDict_GetItemString python_method "method" = some callable)
    (_hnodup : (m.policy.map (fun p => p.name)).Nodup)
    (hperm : (msg.map (fun a => a.name)).Perm (m.policy.map (fun p => p.name)))
    (hkind : ∀ a ∈ msg, ∀ p ∈ m.policy, p.name = a.name →
      p.type = BLOBMSG_TYPE_UNSPEC ∨ p.type = a.type) :
    test_policies m.policy msg = true ∧
    ∀ str data_object, env.blobmsg_format_json msg = some str →
      env.PyUnicode_FromString str = true → env.json_loads str = some data_object →
      env.ResponseHandler_new = true → env.Py_BuildValue = true →
      (ubus_python_method_handler env ctx_global ctx obj req method msg).invoked =
        [(some callable, data_object)] := by
  have ht := test_policies_of_exact m.policy msg hperm hkind
  refine ⟨ht, ?_⟩
  intro str data_object hf hu hj hn hb
  rw [method_handler_reaches_call env ctx_global ctx obj req method msg m python_method str
    data_object hm ht hd hf hu hj hn hb, hc]
  split_ifs <;> rfl

/-- C4 at the scenario: "add" with schema `a: int32, b: int32`, invoked with
`b:2, a:1`. -/
theorem matching_invocation_reaches_handler_witness :
    test_policies [⟨"a", BLOBMSG_TYPE_INT32⟩, ⟨"b", BLOBMSG_TYPE_INT32⟩]
        [int32_attr "b" "2", int32_attr "a" "1"] = true ∧
    (ubus_python_method_handler calc_env (some 1) 1 calc_object 7 "add"
        [int32_attr "b" "2", int32_attr "a" "1"]).invoked =
      [(some (.callable 0), .str "b:2,a:1")] :=
  have h := matching_invocation_reaches_handler calc_env (some 1) 1 calc_object 7 "add"
    [int32_attr "b" "2", int32_attr "a" "1"]
    ⟨"add", [⟨"a", BLOBMSG_TYPE_INT32⟩, ⟨"b", BLOBMSG_TYPE_INT32⟩]⟩
    (.dict [(.str "signature", .dict [(.str "a", .int 5), (.str "b", .int 5)]),
      (.str "method", .callable 0)])
    (.callable 0) rfl rfl rfl (by decide) (by decide) (by decide)
  ⟨h.1, h.2 "b:2,a:1" (.str "b:2,a:1") rfl rfl rfl rfl rfl⟩

/-- C6 (counterexample): in the scenario with a callable that sends the reply `sum:3`,
which the bus accepts, and then raises, the reply is on the bus and the dispatch still
returns `UBUS_STATUS_UNKNOWN_ERROR`, not the success status of the reply.  In the
scenario with a callable that raises `SystemExit`, `PyErr_Print` ends the process: the
error is not swallowed and the dispatch returns no status. -/
theorem raise_after_reply_returns_unknown_error :
    (ubus_ResponseHandler_reply calc_env_reply_then_raise (some 1) ⟨some 1, some 7⟩
        [.str "sum:3"]).ret = .ok true ∧
    ubus_python_method_handler calc_env_reply_then_raise (some 1) 1 calc_object 7 "add"
        [int32_attr "a" "1", int32_attr "b" "2"] =
      ⟨UBUS_STATUS_UNKNOWN_ERROR, [(some (.callable 0), .str "a:1,b:2")],
        [.send_reply 1 7 [⟨"", BLOBMSG_TYPE_UNSPEC, "sum:3"⟩]], some ⟨none, none⟩, 1,
        false⟩ ∧
    (ubus_python_method_handler calc_env_reply_then_raise (some 1) 1 calc_object 7 "add"
        [int32_attr "a" "1", int32_attr "b" "2"]).retval ≠ UBUS_STATUS_OK ∧
    (ubus_python_method_handler calc_env_system_exit (some 1) 1 calc_object 7 "add"
        [int32_attr "a" "1", int32_attr "b" "2"]).exited = true := by
  refine ⟨rfl, rfl, by decide, rfl⟩

/-- C6 (amended): when the user callable raises an exception other than `SystemExit`,
the dispatch prints the error, keeps the replies the callable sent before, clears the
handle and returns `UBUS_STATUS_UNKNOWN_ERROR`, whether or not a reply had been sent. -/
theorem raising_handler_returns_unknown_error (env : Env) (ctx_global : Option ubus_context)
    (ctx : ubus_context) (obj : ubus_Object) (req : ubus_request_data) (method : String)
    (msg : List blob_attr) (m : ubus_method) (python_method : PyObject) (str : String)
    (data_object : PyObject)
    (hm : obj.object.methods.find? (fun m => m.name == method) = some m)
    (ht : test_policies m.policy msg = true)
    (hd : PyDict_GetItemString obj.methods method = some python_method)
    (hf : env.blobmsg_format_json msg = some str)
    (hu : env.PyUnicode_FromString str = true)
    (hj : env.json_loads str = some data_object)
    (hn : env.ResponseHandler_new = true)
    (hb : env.Py_BuildValue = true)
    (hr : (env.PyObject_CallObject (PyDict_GetItemString python_method "method")
      data_object).raised = true)
    (hs : (env.PyObject_CallObject (PyDict_GetItemString python_method "method")
      data_object).system_exit = false) :
    ubus_python_method_handler env ctx_global ctx obj req method msg =
      ⟨UBUS_STATUS_UNKNOWN_ERROR,
        [(PyDict_GetItemString python_method "method", data_object)],
        run_replies env ctx_global ⟨some ctx, some req⟩
          (env.PyObject_CallObject (PyDict_GetItemString python_method "method")
            data_object).replies,
        some ⟨none, none⟩, 1, false⟩ := by
  rw [method_handler_reaches_call env ctx_global ctx obj req method msg m python_method str
    data_object hm ht hd hf hu hj hn hb]
  simp [hr, hs]

/-- C6 (amended) at the scenario with a callable that replies and then raises. -/
theorem raising_handler_returns_unknown_error_witness :
    ubus_python_method_handler calc_env_reply_then_raise (some 1) 1 calc_object 7 "add"
        [int32_attr "a" "1", int32_attr "b" "2"] =
      ⟨UBUS_STATUS_UNKNOWN_ERROR, [(some (.callable 0), .str "a:1,b:2")],
        [.send_reply 1 7 [⟨"", BLOBMSG_TYPE_UNSPEC, "sum:3"⟩]], some ⟨none, none⟩, 1,
        false⟩ :=
  raising_handler_returns_unknown_error calc_env_reply_then_raise (some 1) 1 calc_object 7
    "add" [int32_attr "a" "1", int32_attr "b" "2"]
    ⟨"add", [⟨"a", BLOBMSG_TYPE_INT32⟩, ⟨"b", BLOBMSG_TYPE_INT32⟩]⟩
    (.dict [(.str "signature", .dict [(.str "a", .int 5), (.str "b", .int 5)]),
      (.str "method", .callable 0)])
    "a:1,b:2" (.str "a:1,b:2") rfl rfl rfl rfl rfl rfl rfl rfl rfl rfl

/-- C7: whenever a dispatch has constructed a response handle, the handle it leaves
behind has its connection and request back-references cleared, whether the callable
returned or raised; and every later `reply` on that handle, in any collaborator state
and with any arguments, sets an exception and sends nothing to the bus. -/
theorem response_handle_cleared_after_dispatch (env : Env)
    (ctx_global : Option ubus_context) (ctx : ubus_context) (obj : ubus_Object)
    (req : ubus_request_data) (method : String) (msg : List blob_attr)
    (h : ubus_ResponseHandler)
    (hh : (ubus_python_method_handler env ctx_global ctx obj req method msg).handler
      = some h) :
    h.ctx = none ∧ h.req = none ∧
    ∀ (env2 : Env) (ctx_global2 : Option ubus_context) (args : List PyObject),
      (∃ e, (ubus_ResponseHandler_reply env2 ctx_global2 h args).ret = .error e) ∧
      (ubus_ResponseHandler_reply env2 ctx_global2 h args).bus = [] := by
  have hc : h = ⟨none, none⟩ := by
    rcases method_handler_handle env ctx_global ctx obj req method msg with h0 | h0
    · rw [h0] at hh; cases hh
    · rw [h0] at hh; cases hh; rfl
  subst hc
  exact ⟨rfl, rfl, fun env2 ctx_global2 args => reply_unlinked env2 ctx_global2 args⟩

/-- C7 at the scenario: the handle left by the dispatch of "add" with `a:1, b:2`,
whose callable replied and raised, is cleared and refuses a later `reply`. -/
theorem response_handle_cleared_after_dispatch_witness :
    (ubus_python_method_handler calc_env_reply_then_raise (some 1) 1 calc_object 7 "add"
        [int32_attr "a" "1", int32_attr "b" "2"]).handler = some ⟨none, none⟩ ∧
    (∃ e, (ubus_ResponseHandler_reply calc_env (some 1) ⟨none, none⟩ [.str "sum:3"]).ret
        = .error e) ∧
    (ubus_ResponseHandler_reply calc_env (some 1) ⟨none, none⟩ [.str "sum:3"]).bus = [] :=
  ⟨rfl, (response_handle_cleared_after_dispatch calc_env_reply_then_raise (some 1) 1
    calc_object 7 "add" [int32_attr "a" "1", int32_attr "b" "2"] ⟨none, none⟩ rfl).2.2
      calc_env (some 1) [.str "sum:3"]⟩

/-! ## Lemmas on the call engine -/

/-- One fragment that decodes is appended to a live reply list. -/
theorem call_handler_append (env : Env) (rc : Nat) (items : List PyObject)
    (decoded : List (List blob_attr)) (fault : Bool) (msg : List blob_attr) (str : String)
    (v : PyObject) (hrc : rc ≠ 0)
    (hf : env.blobmsg_format_json msg = some str)
    (hu : env.PyUnicode_FromString str = true)
    (hj : env.json_loads str = some v)
    (ha : env.PyList_Append items v = true) :
    ubus_python_call_handler env ⟨some ⟨rc, items⟩, decoded, fault⟩ (some msg) =
      ⟨some ⟨rc, items ++ [v]⟩, decoded ++ [msg], fault⟩ := by
  unfold ubus_python_call_handler
  simp [hf, hu, hj, ha, hrc]

/-- Fragments that all decode are appended to a live reply list in their order. -/
theorem call_handler_foldl (env : Env) (frags : List (List blob_attr))
    (hdec : ∀ f ∈ frags, ∃ str v, env.blobmsg_format_json f = some str ∧
      env.PyUnicode_FromString str = true ∧ env.json_loads str = some v)
    (happ : ∀ items v, env.PyList_Append items v = true)
    (rc : Nat) (hrc : rc ≠ 0) (items : List PyObject) (decoded : List (List blob_attr))
    (fault : Bool) :
    ∃ vals, vals.map some = frags.map (fragment_value env) ∧
      (frags.map some).foldl (ubus_python_call_handler env) ⟨some ⟨rc, items⟩, decoded, fault⟩
        = ⟨some ⟨rc, items ++ vals⟩, decoded ++ frags, fault⟩ := by
  induction frags generalizing items decoded with
  | nil => exact ⟨[], rfl, by simp⟩
  | cons f rest ih =>
    obtain ⟨str, v, hf, hu, hj⟩ := hdec f (List.mem_cons_self _ _)
    obtain ⟨vals, hv, hfold⟩ := ih (fun g hg => hdec g (List.mem_cons_of_mem _ hg))
      (items ++ [v]) (decoded ++ [f])
    refine ⟨v :: vals, ?_, ?_⟩
    · simp [hv, fragment_value, hf, hj]
    · simp only [List.map_cons, List.foldl_cons]
      rw [call_handler_append env rc items decoded fault f str v hrc hf hu hj (happ _ _), hfold]
      simp

/-! ## Claims on the call engine -/

/-- C8: when `call` gets as far as the invocation, the bus delivers the fragments
`frags` in this order, each of which decodes, no allocation fails, and the invocation
ends with `UBUS_STATUS_OK`, then `call` returns a live list of exactly as many values as
fragments, the i-th being the decoding of the i-th fragment; with no fragment it returns
the empty list, not an error. -/
theorem call_returns_fragments_in_order (env : Env) (ctx : ubus_context)
    (object method : String) (arguments : PyObject) (timeout : Int) (id : Nat)
    (json_arguments : String) (python_buf : List blob_attr) (frags : List (List blob_attr))
    (ht0 : 0 ≤ timeout) (ht1 : timeout ≤ 2147483647)
    (hl : env.ubus_lookup_id ctx object = (UBUS_STATUS_OK, id))
    (hd : env.json_dumps arguments = some json_arguments)
    (hb : env.blobmsg_add_json_from_string json_arguments = some python_buf)
    (hn : env.PyList_New = true)
    (hi : env.ubus_invoke ctx id method python_buf timeout = (frags.map some, UBUS_STATUS_OK))
    (hdec : ∀ f ∈ frags, ∃ str v, env.blobmsg_format_json f = some str ∧
      env.PyUnicode_FromString str = true ∧ env.json_loads str = some v)
    (happ : ∀ items v, env.PyList_Append items v = true) :
    (∃ vals, (ubus_python_call env (some ctx) object method arguments timeout).ret
        = .ok ⟨1, vals⟩ ∧
      vals.length = frags.length ∧
      vals.map some = frags.map (fragment_value env)) ∧
    (frags = [] →
      (ubus_python_call env (some ctx) object method arguments timeout).ret = .ok ⟨1, []⟩) := by
  obtain ⟨vals, hv, hfold⟩ := call_handler_foldl env frags hdec happ 1 (by decide) [] [] false
  have hret : (ubus_python_call env (some ctx) object method arguments timeout).ret
      = .ok ⟨1, vals⟩ := by
    unfold ubus_python_call
    have h1 : ¬ (timeout < -2147483648 ∨ 2147483647 < timeout) := by omega
    have h2 : ¬ timeout < 0 := by omega
    simp only [h1, h2, if_false, hl, hd, hb, hn, hi, hfold]
    simp
  have hlen : vals.length = frags.length := by
    have := congrArg List.length hv
    simpa using this
  refine ⟨⟨vals, hret, hlen, hv⟩, ?_⟩
  intro he
  subst he
  have : vals = [] := List.length_eq_zero.mp (by simpa using hlen)
  rw [hret, this]

/-- C8 at the scenario: the bus delivers `sum:3` and then `sum:4`. -/
theorem call_returns_fragments_in_order_witness :
    ∃ vals, (ubus_python_call calc_env (some 1) "calc" "add" (.str "a:1,b:2") 0).ret
        = .ok ⟨1, vals⟩ ∧
      vals.length = 2 ∧
      vals.map some = [fragment_value calc_env [int32_attr "sum" "3"],
        fragment_value calc_env [int32_attr "sum" "4"]] :=
  (call_returns_fragments_in_order calc_env 1 "calc" "add" (.str "a:1,b:2") 0 1 "a:1,b:2"
    [⟨"", BLOBMSG_TYPE_UNSPEC, "a:1,b:2"⟩] [[int32_attr "sum" "3"], [int32_attr "sum" "4"]]
    (by decide) (by decide) rfl rfl rfl rfl rfl
    (by intro f _; exact ⟨_, _, rfl, rfl, rfl⟩)
    (fun _ _ => rfl)).1

/-- C9 (the code at the failing input): a fragment that fails in the handler, be it one
without a message or one `json.loads` refuses, makes the handler drop its reference to
the reply list but leaves `results` pointing at the list, so the call is not marked
invalid; the next fragment `sum:3` is not ignored: it is handed to the decoder and then
appended to the freed list.  `call` ends returning that freed list. -/
theorem call_handler_keeps_results_after_failure :
    ubus_python_call_handler calc_env ⟨some ⟨1, []⟩, [], false⟩ none
      = ⟨some ⟨0, []⟩, [], false⟩ ∧
    ubus_python_call_handler calc_env_bad_fragment ⟨some ⟨1, []⟩, [], false⟩
        (some [int32_attr "sum" "?"])
      = ⟨some ⟨0, []⟩, [[int32_attr "sum" "?"]], false⟩ ∧
    ubus_python_call_handler calc_env_bad_fragment
        ⟨some ⟨0, []⟩, [[int32_attr "sum" "?"]], false⟩ (some [int32_attr "sum" "3"])
      = ⟨some ⟨0, []⟩, [[int32_attr "sum" "?"], [int32_attr "sum" "3"]], true⟩ ∧
    ubus_python_call calc_env_bad_fragment (some 1) "calc" "add" (.str "a:1,b:2") 0
      = ⟨.ok ⟨0, []⟩,
          [.lookup_id 1 "calc", .invoke 1 1 "add" [⟨"", BLOBMSG_TYPE_UNSPEC, "a:1,b:2"⟩] 0],
          some ⟨some ⟨0, []⟩, [[int32_attr "sum" "?"], [int32_attr "sum" "3"]], true⟩⟩ := by
  refine ⟨rfl, rfl, rfl, rfl⟩

/-- C10: while connected, `call` with a negative timeout sets an exception (the type
error "timeout can't be lower than 0" when the timeout fits a C `int`) without asking
anything of the bus, whatever the object; and `call` with a timeout that is valid and an
object the bus does not resolve sets the error "Object '...' was not found." after the
lookup alone, whatever the arguments: in both cases no invocation is issued. -/
theorem call_rejects_before_invoke (env : Env) (ctx : ubus_context) (object method : String)
    (arguments : PyObject) (timeout : Int) :
    (timeout < 0 →
      (∃ e, (ubus_python_call env (some ctx) object method arguments timeout).ret = .error e) ∧
      (-2147483648 ≤ timeout →
        (ubus_python_call env (some ctx) object method arguments timeout).ret
          = .error (.TypeError "timeout can\x27t be lower than 0")) ∧
      (ubus_python_call env (some ctx) object method arguments timeout).bus = []) ∧
    (0 ≤ timeout → timeout ≤ 2147483647 →
      (env.ubus_lookup_id ctx object).1 ≠ UBUS_STATUS_OK →
      (ubus_python_call env (some ctx) object method arguments timeout).ret
        = .error (.RuntimeError ("Object \x27" ++ object ++ "\x27 was not found.")) ∧
      (ubus_python_call env (some ctx) object method arguments timeout).bus
        = [.lookup_id ctx object]) := by
  constructor
  · intro hneg
    by_cases hr : timeout < -2147483648 ∨ 2147483647 < timeout
    · have hlow : ¬ -2147483648 ≤ timeout := by omega
      have e : ubus_python_call env (some ctx) object method arguments timeout
          = ⟨.error .raised, [], none⟩ := by
        unfold ubus_python_call
        simp only [if_pos hr]
      rw [e]
      exact ⟨⟨_, rfl⟩, fun h => absurd h hlow, rfl⟩
    · have e : ubus_python_call env (some ctx) object method arguments timeout
          = ⟨.error (.TypeError "timeout can\x27t be lower than 0"), [], none⟩ := by
        unfold ubus_python_call
        simp only [if_neg hr, if_pos hneg]
      rw [e]
      exact ⟨⟨_, rfl⟩, fun _ => rfl, rfl⟩
  · intro h0 h1 hl
    have hr : ¬ (timeout < -2147483648 ∨ 2147483647 < timeout) := by omega
    have hn : ¬ timeout < 0 := by omega
    have e : ubus_python_call env (some ctx) object method arguments timeout
        = ⟨.error (.RuntimeError ("Object \x27" ++ object ++ "\x27 was not found.")),
            [.lookup_id ctx object], none⟩ := by
      unfold ubus_python_call
      simp only [if_neg hr, if_neg hn]
      rw [if_pos hl]
    rw [e]
    exact ⟨rfl, rfl⟩

/-- C10 at the scenario: a negative timeout with an unknown object, and an unknown
object with arguments that cannot be encoded. -/
theorem call_rejects_before_invoke_witness :
    ((ubus_python_call calc_env (some 1) "nosuch" "add" (.str "a:1") (-5)).ret
        = .error (.TypeError "timeout can\x27t be lower than 0") ∧
      (ubus_python_call calc_env (some 1) "nosuch" "add" (.str "a:1") (-5)).bus = []) ∧
    ((ubus_python_call calc_env (some 1) "nosuch" "add" .None 0).ret
        = .error (.RuntimeError "Object \x27nosuch\x27 was not found.") ∧
      (ubus_python_call calc_env (some 1) "nosuch" "add" .None 0).bus
        = [.lookup_id 1 "nosuch"]) :=
  ⟨⟨((call_rejects_before_invoke calc_env 1 "nosuch" "add" (.str "a:1") (-5)).1
        (by decide)).2.1 (by decide),
      ((call_rejects_before_invoke calc_env 1 "nosuch" "add" (.str "a:1") (-5)).1
        (by decide)).2.2⟩,
    (call_rejects_before_invoke calc_env 1 "nosuch" "add" .None 0).2
      (by decide) (by decide) (by decide)⟩

/-! ## Lemmas on validation and registration -/

/-- The first loop of `listen` accepts exactly the tuples of a string and a callable. -/
theorem test_listen_item_iff (item : PyObject) :
    test_listen_item item = true ↔
      ∃ event id, item = .tuple [.str event, .callable id] := by
  cases item with
  | tuple items =>
    match items with
    | [] => simp [test_listen_item]
    | [_] => simp [test_listen_item]
    | [event, callback] =>
      cases event <;> cases callback <;> simp [test_listen_item, PyStr_Check, PyCallable_Check]
    | _ :: _ :: _ :: _ => simp [test_listen_item]
  | _ => simp [test_listen_item]

/-- The function `PyStr_Check` holds of the strings only. -/
theorem PyStr_Check_iff (o : PyObject) : PyStr_Check o = true ↔ ∃ s, o = .str s := by
  cases o <;> simp [PyStr_Check]

/-- An `add` whose arguments fail validation returns an exception and leaves the state
and the bus alone. -/
theorem add_invalid (rt : Runtime) (st : Module) (object_name methods : PyObject)
    (h : PyStr_Check object_name = false ∨ test_methods_argument methods = false) :
    ∃ e, ubus_python_add rt st [object_name, methods] = ⟨.error e, st, []⟩ := by
  unfold ubus_python_add
  split
  · exact ⟨_, rfl⟩
  · dsimp only
    by_cases h1 : (!PyStr_Check object_name) = true
    · rw [if_pos h1]; exact ⟨_, rfl⟩
    · rw [if_neg h1]
      have h2 : (!test_methods_argument methods) = true := by
        rcases h with h | h
        · simp [h] at h1
        · simp [h]
      rw [if_pos h2]; exact ⟨_, rfl⟩

/-- A `listen` whose arguments fail validation returns an exception and leaves the state
and the bus alone. -/
theorem listen_invalid (rt : Runtime) (st : Module) (args : List PyObject)
    (h : args = [] ∨ ∃ a ∈ args, test_listen_item a = false) :
    ∃ e, ubus_python_listen rt st args = ⟨.error e, st, []⟩ := by
  unfold ubus_python_listen
  split
  · exact ⟨_, rfl⟩
  · by_cases hl : args.length = 0
    · rw [if_pos hl]; exact ⟨_, rfl⟩
    · rw [if_neg hl]
      have hne : args ≠ [] := fun e => hl (by simp [e])
      rcases h with h | ⟨a, ha, hf⟩
      · exact absurd h hne
      · have hall : (!args.all test_listen_item) = true := by
          have : args.all test_listen_item = false := by
            rw [List.all_eq_false]
            exact ⟨a, ha, by simp [hf]⟩
          simp [this]
        rw [if_pos hall]; exact ⟨_, rfl⟩

/-- Keeping a reference succeeds when the list exists and the append does. -/
theorem keep_reference_some (rt : Runtime) (site : AllocSite) (st : Module) (item : PyObject)
    (list : List PyObject) (hl : st.python_alloc_list = some list)
    (ha : rt.alloc site = true) :
    keep_reference rt site st item = some { st with python_alloc_list := some (list ++ [item]) } := by
  unfold keep_reference
  rw [hl]
  simp [ha]

/-- The function `keep_reference` changes the list of references only. -/
theorem keep_reference_frame (rt : Runtime) (site : AllocSite) (st st2 : Module)
    (item : PyObject) (h : keep_reference rt site st item = some st2) :
    st2.ctx = st.ctx ∧ st2.socket_path = st.socket_path ∧ st2.listeners = st.listeners ∧
    st2.objects = st.objects := by
  unfold keep_reference at h
  split at h
  · cases h
  · split at h
    · cases h; exact ⟨rfl, rfl, rfl, rfl⟩
    · cases h

/-- What an `add` does to the module state: the connection, the socket path and the
listeners stay; the registry stays as it is when `add` fails before or at the bus, gets
the new object at its end when `add` succeeds, and gets an entry for the freed object at
its end when `add` fails to keep a reference. -/
theorem add_outcome (rt : Runtime) (st : Module) (args : List PyObject) :
    (ubus_python_add rt st args).state.ctx = st.ctx ∧
    (ubus_python_add rt st args).state.socket_path = st.socket_path ∧
    (ubus_python_add rt st args).state.listeners = st.listeners ∧
    (((∃ e, (ubus_python_add rt st args).ret = .error e) ∧
        (ubus_python_add rt st args).state.objects = st.objects) ∨
      ((ubus_python_add rt st args).ret = .ok .None ∧
        ∃ o, (ubus_python_add rt st args).state.objects = st.objects ++ [⟨o, false⟩]) ∨
      ((ubus_python_add rt st args).ret = .error .raised ∧
        ∃ o, (ubus_python_add rt st args).state.objects = st.objects ++ [⟨o, true⟩])) := by
  unfold ubus_python_add
  split
  · exact ⟨rfl, rfl, rfl, Or.inl ⟨⟨_, rfl⟩, rfl⟩⟩
  · split
    · split
      · exact ⟨rfl, rfl, rfl, Or.inl ⟨⟨_, rfl⟩, rfl⟩⟩
      · split
        · exact ⟨rfl, rfl, rfl, Or.inl ⟨⟨_, rfl⟩, rfl⟩⟩
        · split
          · exact ⟨rfl, rfl, rfl, Or.inl ⟨⟨_, rfl⟩, rfl⟩⟩
          · dsimp only
            split
            · exact ⟨rfl, rfl, rfl, Or.inl ⟨⟨_, rfl⟩, rfl⟩⟩
            · split
              · exact ⟨rfl, rfl, rfl, Or.inl ⟨⟨_, rfl⟩, rfl⟩⟩
              · split
                · exact ⟨rfl, rfl, rfl, Or.inl ⟨⟨_, rfl⟩, rfl⟩⟩
                · split
                  · exact ⟨rfl, rfl, rfl, Or.inl ⟨⟨_, rfl⟩, by simp⟩⟩
                  · split
                    · exact ⟨rfl, rfl, rfl, Or.inr (Or.inr ⟨rfl, _, rfl⟩)⟩
                    · rename_i st2 h2
                      obtain ⟨a1, a2, a3, a4⟩ := keep_reference_frame rt _ _ st2 _ h2
                      split
                      · exact ⟨a1, a2, a3, Or.inr (Or.inr ⟨rfl, _, rfl⟩)⟩
                      · rename_i st3 h3
                        obtain ⟨b1, b2, b3, b4⟩ := keep_reference_frame rt _ st2 st3 _ h3
                        exact ⟨b1.trans a1, b2.trans a2, b3.trans a3,
                          Or.inr (Or.inl ⟨rfl, _, b4.trans a4⟩)⟩
    · exact ⟨rfl, rfl, rfl, Or.inl ⟨⟨_, rfl⟩, rfl⟩⟩

/-- For a kind tag within the range of a C `int`, the test of a schema entry is the
range test on the tag itself, and the kind stored is the tag. -/
theorem test_signature_entry_int (name : String) (kind : Int)
    (h0 : -2147483648 ≤ kind) (h1 : kind ≤ 2147483647) :
    (test_signature_entry (.str name, .int kind) = true ↔
      0 ≤ kind ∧ kind ≤ BLOBMSG_TYPE_LAST) ∧
    signature_policies (.dict [(.str name, .int kind)]) = [⟨name, kind⟩] := by
  have hl : LONG_MIN ≤ kind ∧ kind ≤ LONG_MAX := by
    unfold LONG_MIN LONG_MAX; omega
  have hv : C_int (PyLong_AsLong (.int kind)) = kind := by
    have hp : PyLong_AsLong (.int kind) = kind := by
      show (if LONG_MIN ≤ kind ∧ kind ≤ LONG_MAX then kind else -1) = kind
      rw [if_pos hl]
    rw [hp]
    unfold C_int
    omega
  constructor
  · unfold test_signature_entry
    simp only [PyStr_Check, PyInt_Check, Bool.not_true, Bool.false_eq_true, if_false, hv]
    unfold BLOBMSG_TYPE_LAST
    by_cases hk : kind < 0 ∨ kind > 8
    · rw [if_pos hk]
      constructor
      · intro h; cases h
      · intro h; omega
    · rw [if_neg hk]
      constructor
      · intro _; omega
      · intro _; rfl
  · simp [signature_policies, PyDict_Next, PyUnicode_AsUTF8, hv]

/-! ## Claims on the object registry -/

/-- C11 (the code at the failing input): `add` of the object "calc" succeeds at the bus,
then fails to keep the reference to the object name.  It removes the object from the bus
and frees it, but does not take it out of the registry: `add` returns an exception, and
`objects_size` has grown from 0 to 1, the entry pointing at the freed object.  When the
bus rejects the object instead, the registry is as before. -/
theorem add_keeps_entry_after_reference_failure :
    ubus_python_add calc_runtime_no_keep connected_state [.str "calc", calc_methods] =
      ⟨.error .raised,
        ⟨some [], some DEFAULT_SOCKET, [], [⟨calc_object, true⟩], some 1, false⟩,
        [.add_object 1 calc_object.object, .remove_object 1 calc_object.object]⟩ ∧
    connected_state.objects_size = 0 ∧
    (ubus_python_add calc_runtime_no_keep connected_state
      [.str "calc", calc_methods]).state.objects_size = 1 ∧
    ubus_python_add { calc_runtime with ubus_add_object := fun _ _ => UBUS_STATUS_UNKNOWN_ERROR }
        connected_state [.str "calc", calc_methods] =
      ⟨.error (.RuntimeError "ubus error occured: error"), connected_state,
        [.add_object 1 calc_object.object]⟩ := by
  refine ⟨rfl, rfl, rfl, rfl⟩

/-- C19 (the code at the failing input): the kind tag 4294967299 is outside 0..8, yet
`test_methods_argument` accepts the table, because the tag is cut to a C `int`, 3, before
the range is tested; `add` registers the object with the policy kind 3, not the integer
supplied.  The tags 9 and -1, and two to the 63, which no `long` holds, are rejected. -/
theorem add_accepts_wide_kind_tag :
    ¬ (0 ≤ (4294967299 : Int) ∧ (4294967299 : Int) ≤ BLOBMSG_TYPE_LAST) ∧
    test_methods_argument wide_kind_methods = true ∧
    ubus_python_add calc_runtime connected_state [.str "calc", wide_kind_methods] =
      ⟨.ok .None,
        ⟨some [.str "calc", wide_kind_methods], some DEFAULT_SOCKET, [],
          [⟨⟨⟨"calc", [⟨"add", [⟨"a", 3⟩]⟩]⟩, wide_kind_methods⟩, false⟩], some 1, false⟩,
        [.add_object 1 ⟨"calc", [⟨"add", [⟨"a", 3⟩]⟩]⟩]⟩ ∧
    test_methods_argument (kind_methods 9) = false ∧
    test_methods_argument (kind_methods (-1)) = false ∧
    test_methods_argument (kind_methods 9223372036854775808) = false := by
  refine ⟨by decide, by decide, rfl, by decide, by decide, by decide⟩

/-- C12: an `add` given an object name that is no string, or a methods table that fails
`test_methods_argument`, and a `listen` given no argument, or some argument, first or
later, that is not a tuple of an event string and a callable, each set an exception,
make no request to the bus, and leave the module state, with both registries, as it
was. -/
theorem validation_errors_change_nothing (rt : Runtime) (st : Module) :
    (∀ object_name methods : PyObject,
      (∀ s, object_name ≠ .str s) ∨ test_methods_argument methods = false →
      (∃ e, (ubus_python_add rt st [object_name, methods]).ret = .error e) ∧
      (ubus_python_add rt st [object_name, methods]).state = st ∧
      (ubus_python_add rt st [object_name, methods]).bus = []) ∧
    (∀ args : List PyObject,
      args = [] ∨ (∃ a ∈ args, ∀ event id, a ≠ .tuple [.str event, .callable id]) →
      (∃ e, (ubus_python_listen rt st args).ret = .error e) ∧
      (ubus_python_listen rt st args).state = st ∧
      (ubus_python_listen rt st args).bus = []) := by
  constructor
  · intro object_name methods h
    have hv : PyStr_Check object_name = false ∨ test_methods_argument methods = false := by
      rcases h with h | h
      · left
        cases hs : PyStr_Check object_name with
        | false => rfl
        | true =>
          obtain ⟨s, rfl⟩ := (PyStr_Check_iff object_name).mp hs
          exact absurd rfl (h s)
      · exact Or.inr h
    obtain ⟨e, he⟩ := add_invalid rt st object_name methods hv
    rw [he]
    exact ⟨⟨e, rfl⟩, rfl, rfl⟩
  · intro args h
    have hv : args = [] ∨ ∃ a ∈ args, test_listen_item a = false := by
      rcases h with h | ⟨a, ha, hn⟩
      · exact Or.inl h
      · right
        refine ⟨a, ha, ?_⟩
        cases ht : test_listen_item a with
        | false => rfl
        | true =>
          obtain ⟨event, id, rfl⟩ := (test_listen_item_iff a).mp ht
          exact absurd rfl (hn event id)
    obtain ⟨e, he⟩ := listen_invalid rt st args hv
    rw [he]
    exact ⟨⟨e, rfl⟩, rfl, rfl⟩

/-- C12 at the scenario: `add` with the number 5 for a name, and `listen` whose second
argument is a list instead of a tuple. -/
theorem validation_errors_change_nothing_witness :
    ((∃ e, (ubus_python_add calc_runtime connected_state [.int 5, calc_methods]).ret
        = .error e) ∧
      (ubus_python_add calc_runtime connected_state [.int 5, calc_methods]).state
        = connected_state ∧
      (ubus_python_add calc_runtime connected_state [.int 5, calc_methods]).bus = []) ∧
    ((∃ e, (ubus_python_listen calc_runtime connected_state
        [.tuple [.str "net.up", .callable 1], .list [.str "net.down", .callable 2]]).ret
          = .error e) ∧
      (ubus_python_listen calc_runtime connected_state
        [.tuple [.str "net.up", .callable 1], .list [.str "net.down", .callable 2]]).state
          = connected_state ∧
      (ubus_python_listen calc_runtime connected_state
        [.tuple [.str "net.up", .callable 1], .list [.str "net.down", .callable 2]]).bus
          = []) :=
  ⟨(validation_errors_change_nothing calc_runtime connected_state).1 (.int 5) calc_methods
      (Or.inl (fun _ h => by cases h)),
    (validation_errors_change_nothing calc_runtime connected_state).2
      [.tuple [.str "net.up", .callable 1], .list [.str "net.down", .callable 2]]
      (Or.inr ⟨.list [.str "net.down", .callable 2], by simp, fun _ _ h => by cases h⟩)⟩

/-! ## Lemmas on the connection lifecycle -/

/-- The state `dispose_connection` leaves. -/
theorem dispose_connection_state (st : Module) (deregister : Bool) :
    (dispose_connection st deregister).1 =
      ⟨none, none, [], [], none, st.fault || st.objects.any (fun o => o.freed)⟩ := rfl

/-- The requests `dispose_connection` makes while connected. -/
theorem dispose_connection_bus (st : Module) (ctx : ubus_context) (deregister : Bool)
    (hc : st.ctx = some ctx) :
    (dispose_connection st deregister).2 =
      (if deregister then
        st.objects.map (fun o => BusOp.remove_object ctx o.target.object)
          ++ st.listeners.map (fun l => BusOp.unregister_event_handler ctx l.event)
      else []) ++ [BusOp.free ctx, BusOp.uloop_done] := by
  unfold dispose_connection
  simp only [hc]
  cases deregister <;> simp

/-- A `disconnect` while connected, by the value of `deregister` its arguments give. -/
theorem disconnect_connected (st : Module) (ctx : ubus_context) (args : List PyObject)
    (deregister : Bool) (hc : st.ctx = some ctx)
    (ha : (args = [] ∧ deregister = true) ∨ args = [.bool deregister]) :
    ubus_python_disconnect st args =
      ⟨.ok .None, (dispose_connection st deregister).1, (dispose_connection st deregister).2⟩ := by
  unfold ubus_python_disconnect
  have hn : st.ctx.isNone = false := by simp [hc]
  rw [hn]
  rcases ha with ⟨rfl, rfl⟩ | rfl <;> rfl

/-- A `connect` from a disconnected state, with a path given or the stored path absent,
when its allocations succeed: what it returns, asks of the bus and leaves behind. -/
theorem connect_disconnected (rt : Runtime) (st : Module) (args : List PyObject)
    (path : String) (hc : st.ctx = none)
    (hp : (args = [] ∧ st.socket_path = none ∧ path = DEFAULT_SOCKET) ∨ args = [.str path])
    (h1 : rt.alloc .alloc_list = true) (h2 : rt.alloc .socket_path = true) :
    ubus_python_connect rt st args =
      match rt.ubus_connect path with
      | none =>
        ⟨.error (.IOError ("Failed to connect to the ubus socket \x27" ++ path ++ "\x27\n")),
          ⟨none, none, [], [], none, st.fault || false⟩,
          [BusOp.connect path, BusOp.uloop_done]⟩
      | some ctx =>
        ⟨.ok (.bool true),
          ⟨some [], some path, [], [], some ctx, st.fault⟩,
          [BusOp.connect path, BusOp.add_uloop ctx]⟩ := by
  unfold ubus_python_connect
  have hs : st.ctx.isSome = false := by simp [hc]
  rw [hs]
  rcases hp with ⟨rfl, hsp, rfl⟩ | rfl
  · simp only [hsp, h1, h2, Bool.false_eq_true, if_false, Bool.not_true, Option.getD_none]
    cases rt.ubus_connect DEFAULT_SOCKET with
    | none => simp [dispose_connection, hc]
    | some ctx => rfl
  · simp only [h1, h2, Bool.false_eq_true, if_false, Bool.not_true, Option.getD_some]
    cases rt.ubus_connect path with
    | none => simp [dispose_connection, hc]
    | some ctx => rfl

/-- A `connect` whose allocations succeed keeps the lifecycle invariant. -/
theorem connect_invariant (rt : Runtime) (st : Module) (args : List PyObject)
    (hi : lifecycle_invariant st)
    (h1 : rt.alloc .alloc_list = true) (h2 : rt.alloc .socket_path = true) :
    lifecycle_invariant (ubus_python_connect rt st args).state := by
  cases hc : st.ctx with
  | some ctx =>
    have : ubus_python_connect rt st args
        = ⟨.error (.RuntimeError MSG_ALREADY_CONNECTED), st, []⟩ := by
      unfold ubus_python_connect
      simp [hc]
    rw [this]; exact hi
  | none =>
    have hsp : st.socket_path = none := by
      have := hi.1
      rw [hc] at this
      cases h : st.socket_path with
      | none => rfl
      | some p => rw [h] at this; simp at this
    have key : ∀ path, (args = [] ∧ st.socket_path = none ∧ path = DEFAULT_SOCKET) ∨
        args = [.str path] → lifecycle_invariant (ubus_python_connect rt st args).state := by
      intro path hp
      rw [connect_disconnected rt st args path hc hp h1 h2]
      cases rt.ubus_connect path with
      | none => exact ⟨by simp, fun _ => ⟨rfl, rfl⟩⟩
      | some ctx => exact ⟨by simp, fun h => by cases h⟩
    match args with
    | [] => exact key DEFAULT_SOCKET (Or.inl ⟨rfl, hsp, rfl⟩)
    | [.str path] => exact key path (Or.inr rfl)
    | [.None] | [.bool _] | [.int _] | [.callable _] | [.list _] | [.dict _] | [.tuple _] =>
      unfold ubus_python_connect
      simpa [hc] using hi
    | _ :: _ :: _ =>
      unfold ubus_python_connect
      simpa [hc] using hi

/-- A `disconnect` keeps the lifecycle invariant. -/
theorem disconnect_invariant (st : Module) (args : List PyObject)
    (hi : lifecycle_invariant st) :
    lifecycle_invariant (ubus_python_disconnect st args).state := by
  unfold ubus_python_disconnect
  split
  · exact hi
  · dsimp only
    split
    · exact hi
    · exact ⟨by simp [dispose_connection], fun _ => ⟨rfl, rfl⟩⟩

/-! ## Claims on the connection lifecycle -/

/-- C14: in a state that is not connected, `disconnect`, `send`, `listen`, `loop`, `add`,
`objects`, `call` and the `reply` of a response handle return the exception "You are not
connected to ubus." for every argument, and in a connected state `connect` returns "You
are already connected to ubus." for every argument; in each case the module state, with
the connection, the socket path and both registries, is as before and nothing is asked
of the bus. -/
theorem entry_points_are_guarded (rt : Runtime) (st : Module) (args : List PyObject)
    (object method : String) (arguments : PyObject) (timeout : Int)
    (self : ubus_ResponseHandler) :
    (st.ctx = none →
      ubus_python_disconnect st args = ⟨.error (.RuntimeError MSG_NOT_CONNECTED), st, []⟩ ∧
      ubus_python_send rt st args = ⟨.error (.RuntimeError MSG_NOT_CONNECTED), st, []⟩ ∧
      ubus_python_listen rt st args = ⟨.error (.RuntimeError MSG_NOT_CONNECTED), st, []⟩ ∧
      ubus_python_loop st args = ⟨.error (.RuntimeError MSG_NOT_CONNECTED), st, []⟩ ∧
      ubus_python_add rt st args = ⟨.error (.RuntimeError MSG_NOT_CONNECTED), st, []⟩ ∧
      ubus_python_objects rt st args = ⟨.error (.RuntimeError MSG_NOT_CONNECTED), st, []⟩ ∧
      ubus_python_call rt.toEnv st.ctx object method arguments timeout =
        ⟨.error (.RuntimeError MSG_NOT_CONNECTED), [], none⟩ ∧
      ubus_ResponseHandler_reply rt.toEnv st.ctx self args =
        ⟨.error (.RuntimeError MSG_NOT_CONNECTED), []⟩) ∧
    (st.ctx ≠ none →
      ubus_python_connect rt st args =
        ⟨.error (.RuntimeError MSG_ALREADY_CONNECTED), st, []⟩) := by
  constructor
  · intro hc
    refine ⟨?_, ?_, ?_, ?_, ?_, ?_, ?_, ?_⟩
    · unfold ubus_python_disconnect; rw [hc]; rfl
    · unfold ubus_python_send; rw [hc]; rfl
    · unfold ubus_python_listen; rw [hc]; rfl
    · unfold ubus_python_loop; rw [hc]; rfl
    · unfold ubus_python_add; rw [hc]; rfl
    · unfold ubus_python_objects; rw [hc]; rfl
    · rw [hc]; rfl
    · rw [hc]; rfl
  · intro hc
    unfold ubus_python_connect
    have hs : st.ctx.isSome = true := by
      cases h : st.ctx with
      | none => exact absurd h hc
      | some c => rfl
    rw [if_pos hs]

/-- C14 at the scenario: `add` in the initial state, and `connect` in the connected
state. -/
theorem entry_points_are_guarded_witness :
    ubus_python_add calc_runtime Module.initial [.str "calc", calc_methods] =
      ⟨.error (.RuntimeError MSG_NOT_CONNECTED), Module.initial, []⟩ ∧
    ubus_python_connect calc_runtime connected_state [.str "/tmp/other.sock"] =
      ⟨.error (.RuntimeError MSG_ALREADY_CONNECTED), connected_state, []⟩ :=
  ⟨((entry_points_are_guarded calc_runtime Module.initial [.str "calc", calc_methods]
      "calc" "add" .None 0 ⟨none, none⟩).1 rfl).2.2.2.2.1,
    (entry_points_are_guarded calc_runtime connected_state [.str "/tmp/other.sock"]
      "calc" "add" .None 0 ⟨none, none⟩).2 (by simp [connected_state])⟩

/-- C15: a `disconnect` while connected, with `deregister` left out, true or false, and
whatever the registries hold, returns `None` and leaves the module disconnected:
`get_connected()` is false, `get_socket_path()` is `None`, and both registries are empty;
a `disconnect` right after it, with any arguments, returns the exception "You are not
connected to ubus.". -/
theorem disconnect_clears_everything (st : Module) (ctx : ubus_context)
    (args : List PyObject) (hc : st.ctx = some ctx)
    (ha : args = [] ∨ ∃ deregister, args = [.bool deregister]) :
    (ubus_python_disconnect st args).ret = .ok .None ∧
    (ubus_python_disconnect st args).state.ctx = none ∧
    ubus_python_get_connected (ubus_python_disconnect st args).state = .bool false ∧
    ubus_python_get_socket_path (ubus_python_disconnect st args).state = .None ∧
    (ubus_python_disconnect st args).state.objects = [] ∧
    (ubus_python_disconnect st args).state.listeners = [] ∧
    ∀ args2, (ubus_python_disconnect (ubus_python_disconnect st args).state args2).ret =
      .error (.RuntimeError MSG_NOT_CONNECTED) := by
  obtain ⟨deregister, hd⟩ : ∃ deregister,
      (args = [] ∧ deregister = true) ∨ args = [.bool deregister] := by
    rcases ha with h | ⟨b, h⟩
    · exact ⟨true, Or.inl ⟨h, rfl⟩⟩
    · exact ⟨b, Or.inr h⟩
  rw [disconnect_connected st ctx args deregister hc hd]
  refine ⟨rfl, rfl, rfl, rfl, rfl, rfl, ?_⟩
  intro args2
  rfl

/-- C15 at the scenario: `disconnect(False)` in the state with two objects and two
listeners. -/
theorem disconnect_clears_everything_witness :
    (ubus_python_disconnect busy_state [.bool false]).ret = .ok .None ∧
    (ubus_python_disconnect busy_state [.bool false]).state.ctx = none ∧
    ubus_python_get_connected (ubus_python_disconnect busy_state [.bool false]).state
      = .bool false ∧
    ubus_python_get_socket_path (ubus_python_disconnect busy_state [.bool false]).state
      = .None ∧
    (ubus_python_disconnect busy_state [.bool false]).state.objects = [] ∧
    (ubus_python_disconnect busy_state [.bool false]).state.listeners = [] ∧
    ∀ args2,
      (ubus_python_disconnect (ubus_python_disconnect busy_state [.bool false]).state
        args2).ret = .error (.RuntimeError MSG_NOT_CONNECTED) :=
  disconnect_clears_everything busy_state 1 [.bool false] rfl (Or.inr ⟨false, rfl⟩)

/-- C18: while connected, `disconnect()` and `disconnect(True)` ask the bus for one
`remove_object` per object of the registry, in registration order, then for one
`unregister_event_handler` per listener of the registry, in order, whatever the bus
answers to each, and only then free the transport; `disconnect(False)` frees the
transport without any `remove_object` or `unregister_event_handler`. -/
theorem disconnect_deregisters_in_order (st : Module) (ctx : ubus_context)
    (hc : st.ctx = some ctx) :
    (ubus_python_disconnect st []).bus =
      st.objects.map (fun o => BusOp.remove_object ctx o.target.object)
        ++ st.listeners.map (fun l => BusOp.unregister_event_handler ctx l.event)
        ++ [BusOp.free ctx, BusOp.uloop_done] ∧
    (ubus_python_disconnect st [.bool true]).bus =
      st.objects.map (fun o => BusOp.remove_object ctx o.target.object)
        ++ st.listeners.map (fun l => BusOp.unregister_event_handler ctx l.event)
        ++ [BusOp.free ctx, BusOp.uloop_done] ∧
    (ubus_python_disconnect st [.bool false]).bus = [BusOp.free ctx, BusOp.uloop_done] := by
  refine ⟨?_, ?_, ?_⟩
  · rw [disconnect_connected st ctx [] true hc (Or.inl ⟨rfl, rfl⟩)]
    exact dispose_connection_bus st ctx true hc
  · rw [disconnect_connected st ctx [.bool true] true hc (Or.inr rfl)]
    exact dispose_connection_bus st ctx true hc
  · rw [disconnect_connected st ctx [.bool false] false hc (Or.inr rfl)]
    exact dispose_connection_bus st ctx false hc

/-- C18 at the scenario: the state with the objects "calc" and "log" and the listeners
on "net.up" and "net.down". -/
theorem disconnect_deregisters_in_order_witness :
    (ubus_python_disconnect busy_state []).bus =
      [.remove_object 1 calc_object.object, .remove_object 1 ⟨"log", []⟩,
        .unregister_event_handler 1 "net.up", .unregister_event_handler 1 "net.down",
        .free 1, .uloop_done] ∧
    (ubus_python_disconnect busy_state [.bool false]).bus = [.free 1, .uloop_done] :=
  ⟨(disconnect_deregisters_in_order busy_state 1 rfl).1,
    (disconnect_deregisters_in_order busy_state 1 rfl).2.2⟩

/-! ## Lemmas on the event bus -/

/-- The second loop of `listen` on valid pairs when no allocation fails: every pair is
attempted, and the pairs the bus accepts are appended to the registry. -/
theorem listen_add_callbacks_spec (rt : Runtime) (ctx : ubus_context)
    (ha : ∀ site, rt.alloc site = true) (args : List PyObject)
    (hv : ∀ a ∈ args, ∃ event id, a = .tuple [.str event, .callable id]) :
    ∀ (i : Nat) (st : Module) (bus : List BusOp), st.python_alloc_list ≠ none →
      ∃ st2, listen_add_callbacks rt ctx args i st bus
          = (none, st2, bus ++ attempted_registrations ctx args) ∧
        st2.listeners = st.listeners ++ accepted_listeners rt ctx args i ∧
        st2.objects = st.objects ∧ st2.ctx = st.ctx ∧ st2.socket_path = st.socket_path ∧
        st2.python_alloc_list ≠ none := by
  induction args with
  | nil =>
    intro i st bus hl
    exact ⟨st, by simp [listen_add_callbacks, attempted_registrations],
      by simp [accepted_listeners], rfl, rfl, rfl, hl⟩
  | cons a rest ih =>
    intro i st bus hl
    obtain ⟨event, id, rfl⟩ := hv _ (List.mem_cons_self _ _)
    have hrest : ∀ b ∈ rest, ∃ event id, b = .tuple [.str event, .callable id] :=
      fun b hb => hv b (List.mem_cons_of_mem _ hb)
    obtain ⟨list, hlist⟩ := Option.ne_none_iff_exists'.mp hl
    have k1 := keep_reference_some rt (.keep_event i) st (.str event) list hlist (ha _)
    have k2 := keep_reference_some rt (.keep_callback i)
      { st with python_alloc_list := some (list ++ [.str event]) } (.callable id)
      (list ++ [.str event]) rfl (ha _)
    unfold listen_add_callbacks
    simp only [k1, k2, ha, Bool.not_true, Bool.false_eq_true, if_false, PyUnicode_AsUTF8]
    by_cases hr : rt.ubus_register_event_handler ctx i event = UBUS_STATUS_OK
    · obtain ⟨st2, h1, h2, h3, h4, h5, h6⟩ := ih hrest (i + 1)
        { st with
          python_alloc_list := some (list ++ [.str event] ++ [.callable id])
          listeners := st.listeners ++ [⟨event, .callable id⟩] }
        (bus ++ [BusOp.register_event_handler ctx event]) (by simp)
      refine ⟨st2, ?_, ?_, h3, h4, h5, h6⟩
      · simp only [hr, ne_eq, not_true_eq_false, if_false]
        rw [h1]
        simp [attempted_registrations]
      · rw [h2]
        simp [accepted_listeners, hr]
    · obtain ⟨st2, h1, h2, h3, h4, h5, h6⟩ := ih hrest (i + 1)
        { st with
          python_alloc_list := some (list ++ [.str event] ++ [.callable id])
          listeners := (st.listeners ++ [(⟨event, .callable id⟩ : ubus_Listener)]).dropLast }
        (bus ++ [BusOp.register_event_handler ctx event]) (by simp)
      refine ⟨st2, ?_, ?_, h3, h4, h5, h6⟩
      · simp only [hr, ne_eq, not_false_eq_true, if_true]
        rw [h1]
        simp [attempted_registrations]
      · rw [h2]
        simp [accepted_listeners, hr]

/-- A `listen` on valid pairs, while connected and when no allocation fails. -/
theorem listen_valid (rt : Runtime) (st : Module) (ctx : ubus_context) (args : List PyObject)
    (hc : st.ctx = some ctx) (hl : st.python_alloc_list ≠ none) (hne : args ≠ [])
    (hv : ∀ a ∈ args, ∃ event id, a = .tuple [.str event, .callable id])
    (ha : ∀ site, rt.alloc site = true) :
    ∃ st2, ubus_python_listen rt st args = ⟨.ok .None, st2, attempted_registrations ctx args⟩ ∧
      st2.listeners = st.listeners ++ accepted_listeners rt ctx args 0 ∧
      st2.objects = st.objects ∧ st2.ctx = st.ctx ∧ st2.socket_path = st.socket_path := by
  obtain ⟨st2, h1, h2, h3, h4, h5, _⟩ := listen_add_callbacks_spec rt ctx ha args hv 0 st [] hl
  refine ⟨st2, ?_, h2, h3, h4, h5⟩
  unfold ubus_python_listen
  have hlen : ¬ args.length = 0 := fun e => hne (List.length_eq_zero.mp e)
  have hall : args.all test_listen_item = true := by
    rw [List.all_eq_true]
    intro a ha2
    exact (test_listen_item_iff a).mpr (hv a ha2)
  simp only [hc, hlen, hall, if_false, Bool.not_true, Bool.false_eq_true, h1, List.nil_append]

/-- The second loop of `listen` leaves the connection, the socket path and the objects
as they are. -/
theorem listen_add_callbacks_frame (rt : Runtime) (ctx : ubus_context) (args : List PyObject) :
    ∀ (i : Nat) (st : Module) (bus : List BusOp),
      (listen_add_callbacks rt ctx args i st bus).2.1.ctx = st.ctx ∧
      (listen_add_callbacks rt ctx args i st bus).2.1.socket_path = st.socket_path ∧
      (listen_add_callbacks rt ctx args i st bus).2.1.objects = st.objects := by
  induction args with
  | nil => intro i st bus; exact ⟨rfl, rfl, rfl⟩
  | cons a rest ih =>
    intro i st bus
    unfold listen_add_callbacks
    split
    · rename_i event callback
      split
      · exact ⟨rfl, rfl, rfl⟩
      · rename_i st1 h1
        obtain ⟨a1, a2, _, a4⟩ := keep_reference_frame rt _ st st1 event h1
        split
        · exact ⟨a1, a2, a4⟩
        · rename_i st2 h2
          obtain ⟨b1, b2, _, b4⟩ := keep_reference_frame rt _ st1 st2 callback h2
          split
          · exact ⟨b1.trans a1, b2.trans a2, b4.trans a4⟩
          · split
            · exact ⟨b1.trans a1, b2.trans a2, b4.trans a4⟩
            · dsimp only
              split
              · obtain ⟨c1, c2, c3⟩ := ih (i + 1)
                  { st2 with listeners := (st2.listeners ++
                    [(⟨PyUnicode_AsUTF8 event, callback⟩ : ubus_Listener)]).dropLast }
                  (bus ++ [BusOp.register_event_handler ctx (PyUnicode_AsUTF8 event)])
                exact ⟨c1.trans (b1.trans a1), c2.trans (b2.trans a2), c3.trans (b4.trans a4)⟩
              · obtain ⟨c1, c2, c3⟩ := ih (i + 1)
                  { st2 with listeners := st2.listeners ++
                    [(⟨PyUnicode_AsUTF8 event, callback⟩ : ubus_Listener)] }
                  (bus ++ [BusOp.register_event_handler ctx (PyUnicode_AsUTF8 event)])
                exact ⟨c1.trans (b1.trans a1), c2.trans (b2.trans a2), c3.trans (b4.trans a4)⟩
    · exact ⟨rfl, rfl, rfl⟩

/-- A `listen` leaves the connection, the socket path and the objects as they are. -/
theorem listen_frame (rt : Runtime) (st : Module) (args : List PyObject) :
    (ubus_python_listen rt st args).state.ctx = st.ctx ∧
    (ubus_python_listen rt st args).state.socket_path = st.socket_path ∧
    (ubus_python_listen rt st args).state.objects = st.objects := by
  unfold ubus_python_listen
  split
  · exact ⟨rfl, rfl, rfl⟩
  · rename_i ctx _
    split
    · exact ⟨rfl, rfl, rfl⟩
    · split
      · exact ⟨rfl, rfl, rfl⟩
      · have hf := listen_add_callbacks_frame rt ctx args 0 st []
        split
        · rename_i e st2 bus heq
          rw [heq] at hf
          exact hf
        · rename_i st2 bus heq
          rw [heq] at hf
          exact hf

/-! ## Claims on the event bus -/

/-- C13: for a `listen` while connected, the list of kept references being there as
`connect` leaves it, on arguments that are all pairs of an event string and a callable,
and with no allocation failing: a registration the bus rejects
neither undoes the pairs registered before it nor keeps the later pairs from being
attempted.  One registration is requested per pair, in argument order; `listen` returns
`None`; and the listener registry afterwards is the registry before followed by exactly
the pairs the bus accepted, in argument order, each with its own callback. -/
theorem listen_keeps_accepted_pairs (rt : Runtime) (st : Module) (ctx : ubus_context)
    (args : List PyObject) (hc : st.ctx = some ctx) (hl : st.python_alloc_list ≠ none)
    (hne : args ≠ [])
    (hv : ∀ a ∈ args, ∃ event id, a = .tuple [.str event, .callable id])
    (ha : ∀ site, rt.alloc site = true) :
    (ubus_python_listen rt st args).ret = .ok .None ∧
    (ubus_python_listen rt st args).state.listeners =
      st.listeners ++ accepted_listeners rt ctx args 0 ∧
    (ubus_python_listen rt st args).bus = attempted_registrations ctx args := by
  obtain ⟨st2, h1, h2, _⟩ := listen_valid rt st ctx args hc hl hne hv ha
  rw [h1]
  exact ⟨rfl, h2, rfl⟩

/-- C13 at the scenario: with listeners on "net.up" and "net.down" registered, `listen`
is given pairs for "a.0", "a.1" and "a.2", and the bus rejects the second of them. -/
theorem listen_keeps_accepted_pairs_witness :
    (ubus_python_listen calc_runtime_rejecting busy_state
      [.tuple [.str "a.0", .callable 10], .tuple [.str "a.1", .callable 11],
        .tuple [.str "a.2", .callable 12]]).ret = .ok .None ∧
    (ubus_python_listen calc_runtime_rejecting busy_state
      [.tuple [.str "a.0", .callable 10], .tuple [.str "a.1", .callable 11],
        .tuple [.str "a.2", .callable 12]]).state.listeners =
      [⟨"net.up", .callable 1⟩, ⟨"net.down", .callable 2⟩, ⟨"a.0", .callable 10⟩,
        ⟨"a.2", .callable 12⟩] ∧
    (ubus_python_listen calc_runtime_rejecting busy_state
      [.tuple [.str "a.0", .callable 10], .tuple [.str "a.1", .callable 11],
        .tuple [.str "a.2", .callable 12]]).bus =
      [.register_event_handler 1 "a.0", .register_event_handler 1 "a.1",
        .register_event_handler 1 "a.2"] :=
  listen_keeps_accepted_pairs calc_runtime_rejecting busy_state 1
    [.tuple [.str "a.0", .callable 10], .tuple [.str "a.1", .callable 11],
      .tuple [.str "a.2", .callable 12]]
    rfl (by simp [busy_state]) (by simp)
    (by
      intro a ha
      simp only [List.mem_cons, List.mem_singleton, List.not_mem_nil, or_false] at ha
      rcases ha with rfl | rfl | rfl <;> exact ⟨_, _, rfl⟩)
    (fun _ => rfl)

/-! ## Lemmas on bus failures -/

/-- An `add` that returns a value has asked the bus to add one object, and the bus has
accepted it. -/
theorem add_ok_bus (rt : Runtime) (st : Module) (args : List PyObject) (v : PyObject)
    (h : (ubus_python_add rt st args).ret = .ok v) :
    ∃ ctx o, st.ctx = some ctx ∧
      (ubus_python_add rt st args).bus = [BusOp.add_object ctx o] ∧
      rt.ubus_add_object ctx o = UBUS_STATUS_OK := by
  have key : ∀ r, r = ubus_python_add rt st args → r.ret = .ok v →
      ∃ ctx o, st.ctx = some ctx ∧ r.bus = [BusOp.add_object ctx o] ∧
        rt.ubus_add_object ctx o = UBUS_STATUS_OK := by
    intro r hr h
    unfold ubus_python_add at hr
    split at hr
    · subst hr; cases h
    · rename_i ctx hctx
      split at hr
      · split at hr
        · subst hr; cases h
        · split at hr
          · subst hr; cases h
          · split at hr
            · subst hr; cases h
            · dsimp only at hr
              split at hr
              · subst hr; cases h
              · split at hr
                · subst hr; cases h
                · split at hr
                  · subst hr; cases h
                  · split at hr
                    · subst hr; cases h
                    · rename_i hret
                      split at hr
                      · subst hr; cases h
                      · split at hr
                        · subst hr; cases h
                        · subst hr
                          exact ⟨ctx, _, hctx, rfl, not_not.mp hret⟩
      · subst hr; cases h
  exact key _ rfl h

/-- The outcome of a `send` that reaches the bus. -/
theorem send_bus (rt : Runtime) (st : Module) (args : List PyObject) (ctx : ubus_context)
    (event : String) (msg : List blob_attr)
    (h : BusOp.send_event ctx event msg ∈ (ubus_python_send rt st args).bus) :
    (ubus_python_send rt st args).ret =
      .ok (.bool (rt.ubus_send_event ctx event msg == UBUS_STATUS_OK)) := by
  unfold ubus_python_send at h ⊢
  split at h
  · simp [not_connected] at h
  · split at h
    · split at h
      · simp at h
      · split at h
        · simp at h
        · simp only [List.mem_singleton, BusOp.send_event.injEq] at h
          obtain ⟨rfl, rfl, rfl⟩ := h
          simp [*]
    · simp at h

/-- A `call` that returns a value has looked the object up and invoked the method, and
the bus has answered both with `UBUS_STATUS_OK`. -/
theorem call_ok_bus (env : Env) (ctx : ubus_context) (object method : String)
    (arguments : PyObject) (timeout : Int) (list : PyListObject)
    (h : (ubus_python_call env (some ctx) object method arguments timeout).ret = .ok list) :
    ∃ msg, (ubus_python_call env (some ctx) object method arguments timeout).bus =
        [BusOp.lookup_id ctx object,
          BusOp.invoke ctx (env.ubus_lookup_id ctx object).2 method msg timeout] ∧
      (env.ubus_lookup_id ctx object).1 = UBUS_STATUS_OK ∧
      (env.ubus_invoke ctx (env.ubus_lookup_id ctx object).2 method msg timeout).2
        = UBUS_STATUS_OK := by
  have key : ∀ r, r = ubus_python_call env (some ctx) object method arguments timeout →
      r.ret = .ok list →
      ∃ msg, r.bus = [BusOp.lookup_id ctx object,
          BusOp.invoke ctx (env.ubus_lookup_id ctx object).2 method msg timeout] ∧
        (env.ubus_lookup_id ctx object).1 = UBUS_STATUS_OK ∧
        (env.ubus_invoke ctx (env.ubus_lookup_id ctx object).2 method msg timeout).2
          = UBUS_STATUS_OK := by
    intro r hr h
    unfold ubus_python_call at hr
    dsimp only at hr
    split at hr
    · subst hr; cases h
    · split at hr
      · subst hr; cases h
      · split at hr
        · subst hr; cases h
        · rename_i hl
          split at hr
          · subst hr; cases h
          · split at hr
            · subst hr; cases h
            · rename_i python_buf hbuf
              split at hr
              · subst hr; cases h
              · split at hr
                · subst hr; cases h
                · rename_i hi
                  split at hr
                  · subst hr
                    exact ⟨python_buf, rfl, not_not.mp hl, not_not.mp hi⟩
                  · subst hr; cases h
  exact key _ rfl h

/-- The outcome of an `objects` that reaches the bus. -/
theorem objects_bus (rt : Runtime) (st : Module) (args : List PyObject) (ctx : ubus_context)
    (path : String) (h : BusOp.lookup ctx path ∈ (ubus_python_objects rt st args).bus) :
    (ubus_python_objects rt st args).ret =
      if (rt.ubus_lookup ctx path).2 = UBUS_STATUS_OK ∨
          (rt.ubus_lookup ctx path).2 = UBUS_STATUS_NOT_FOUND then
        .ok (.dict ((rt.ubus_lookup ctx path).1.foldl (ubus_python_objects_handler rt) []))
      else
        .error (.RuntimeError ("ubus error occured: " ++
          rt.ubus_strerror (rt.ubus_lookup ctx path).2)) := by
  have key : ∀ r, r = ubus_python_objects rt st args → BusOp.lookup ctx path ∈ r.bus →
      r.ret =
        if (rt.ubus_lookup ctx path).2 = UBUS_STATUS_OK ∨
            (rt.ubus_lookup ctx path).2 = UBUS_STATUS_NOT_FOUND then
          .ok (.dict ((rt.ubus_lookup ctx path).1.foldl (ubus_python_objects_handler rt) []))
        else
          .error (.RuntimeError ("ubus error occured: " ++
            rt.ubus_strerror (rt.ubus_lookup ctx path).2)) := by
    intro r hr h
    unfold ubus_python_objects at hr
    split at hr
    · subst hr; simp [not_connected] at h
    · dsimp only at hr
      split at hr
      · subst hr; simp at h
      · split at hr
        · subst hr; simp at h
        · split at hr
          · rename_i hs
            subst hr
            simp only [List.mem_singleton, BusOp.lookup.injEq] at h
            obtain ⟨rfl, rfl⟩ := h
            rw [if_pos hs]
          · rename_i hs
            subst hr
            simp only [List.mem_singleton, BusOp.lookup.injEq] at h
            obtain ⟨rfl, rfl⟩ := h
            rw [if_neg hs]
  exact key _ rfl h

/-! ## Claims on bus failures -/

/-- C16 (counterexample): the bus answers the registration of the second listener with
`UBUS_STATUS_UNKNOWN_ERROR`, and `listen` returns `None`, its plain success value; the bus
answers a lookup with `UBUS_STATUS_NOT_FOUND`, and `objects` returns a dictionary, its
plain success value. -/
theorem listen_and_objects_hide_bus_failure :
    calc_runtime_rejecting.ubus_register_event_handler 1 1 "net.down" ≠ UBUS_STATUS_OK ∧
    ubus_python_listen calc_runtime_rejecting connected_state
        [.tuple [.str "net.up", .callable 1], .tuple [.str "net.down", .callable 2]] =
      ⟨.ok .None,
        ⟨some [.str "net.up", .callable 1, .str "net.down", .callable 2],
          some DEFAULT_SOCKET, [⟨"net.up", .callable 1⟩], [], some 1, false⟩,
        [.register_event_handler 1 "net.up", .register_event_handler 1 "net.down"]⟩ ∧
    (calc_runtime_rejecting.ubus_lookup 1 "nosuch").2 ≠ UBUS_STATUS_OK ∧
    ubus_python_objects calc_runtime_rejecting connected_state [.str "nosuch"] =
      ⟨.ok (.dict []), connected_state, [.lookup 1 "nosuch"]⟩ := by
  refine ⟨by decide, rfl, by decide, rfl⟩

/-- C16 (amended): while connected, `add`, `call` and `send` surface every failure of the
bus: a status other than `UBUS_STATUS_OK` for the request of `add`, or for the lookup or
the invocation of `call`, makes the operation return an exception, and one for the
request of `send` makes it return false.  `objects` returns an exception for every status
other than `UBUS_STATUS_OK` and `UBUS_STATUS_NOT_FOUND`, and a dictionary for
`UBUS_STATUS_NOT_FOUND`.  `listen`, on valid pairs, with the list of kept references
there and no allocation failing, returns `None` whatever the bus answers to its
registrations. -/
theorem bus_failures_surface_except (rt : Runtime) (st : Module) (ctx : ubus_context)
    (args : List PyObject) (object method : String) (arguments : PyObject) (timeout : Int)
    (hc : st.ctx = some ctx) :
    (∀ o, BusOp.add_object ctx o ∈ (ubus_python_add rt st args).bus →
      rt.ubus_add_object ctx o ≠ UBUS_STATUS_OK →
      ∃ e, (ubus_python_add rt st args).ret = .error e) ∧
    (∀ event msg, BusOp.send_event ctx event msg ∈ (ubus_python_send rt st args).bus →
      rt.ubus_send_event ctx event msg ≠ UBUS_STATUS_OK →
      (ubus_python_send rt st args).ret = .ok (.bool false)) ∧
    (BusOp.lookup_id ctx object ∈
        (ubus_python_call rt.toEnv st.ctx object method arguments timeout).bus →
      (rt.ubus_lookup_id ctx object).1 ≠ UBUS_STATUS_OK →
      ∃ e, (ubus_python_call rt.toEnv st.ctx object method arguments timeout).ret = .error e) ∧
    (∀ id msg, BusOp.invoke ctx id method msg timeout ∈
        (ubus_python_call rt.toEnv st.ctx object method arguments timeout).bus →
      (rt.ubus_invoke ctx id method msg timeout).2 ≠ UBUS_STATUS_OK →
      ∃ e, (ubus_python_call rt.toEnv st.ctx object method arguments timeout).ret = .error e) ∧
    (∀ path, BusOp.lookup ctx path ∈ (ubus_python_objects rt st args).bus →
      ((rt.ubus_lookup ctx path).2 ≠ UBUS_STATUS_OK →
        (rt.ubus_lookup ctx path).2 ≠ UBUS_STATUS_NOT_FOUND →
        ∃ e, (ubus_python_objects rt st args).ret = .error e) ∧
      ((rt.ubus_lookup ctx path).2 = UBUS_STATUS_NOT_FOUND →
        ∃ res, (ubus_python_objects rt st args).ret = .ok (.dict res))) ∧
    (st.python_alloc_list ≠ none → args ≠ [] →
      (∀ a ∈ args, ∃ event id, a = .tuple [.str event, .callable id]) →
      (∀ site, rt.alloc site = true) →
      (ubus_python_listen rt st args).ret = .ok .None ∧
      (ubus_python_listen rt st args).bus = attempted_registrations ctx args) := by
  refine ⟨?_, ?_, ?_, ?_, ?_, ?_⟩
  · intro o hm hs
    cases hr : (ubus_python_add rt st args).ret with
    | error e => exact ⟨e, rfl⟩
    | ok v =>
      obtain ⟨ctx2, o2, _, hb, hok⟩ := add_ok_bus rt st args v hr
      rw [hb] at hm
      simp only [List.mem_singleton, BusOp.add_object.injEq] at hm
      obtain ⟨rfl, rfl⟩ := hm
      exact absurd hok hs
  · intro event msg hm hs
    rw [send_bus rt st args ctx event msg hm]
    simp [hs]
  · intro hm hs
    rw [hc] at hm ⊢
    cases hr : (ubus_python_call rt.toEnv (some ctx) object method arguments timeout).ret with
    | error e => exact ⟨e, rfl⟩
    | ok list =>
      obtain ⟨_, _, hok, _⟩ := call_ok_bus rt.toEnv ctx object method arguments timeout list hr
      exact absurd hok hs
  · intro id msg hm hs
    rw [hc] at hm ⊢
    cases hr : (ubus_python_call rt.toEnv (some ctx) object method arguments timeout).ret with
    | error e => exact ⟨e, rfl⟩
    | ok list =>
      obtain ⟨msg2, hb, _, hok⟩ :=
        call_ok_bus rt.toEnv ctx object method arguments timeout list hr
      rw [hb] at hm
      simp only [List.mem_cons, List.mem_singleton, BusOp.invoke.injEq, List.not_mem_nil,
        or_false, false_or, reduceCtorEq] at hm
      obtain ⟨_, rfl, _, rfl, _⟩ := hm
      exact absurd hok hs
  · intro path hm
    rw [objects_bus rt st args ctx path hm]
    constructor
    · intro h1 h2
      rw [if_neg (by tauto)]
      exact ⟨_, rfl⟩
    · intro h1
      rw [if_pos (Or.inr h1)]
      exact ⟨_, rfl⟩
  · intro hl hne hv ha
    obtain ⟨st2, h1, _⟩ := listen_valid rt st ctx args hc hl hne hv ha
    rw [h1]
    exact ⟨rfl, rfl⟩

/-- C16 (amended) at the scenario: a bus that rejects the object "calc", and a bus that
rejects the second of two listeners. -/
theorem bus_failures_surface_except_witness :
    (∃ e, (ubus_python_add
        { calc_runtime with ubus_add_object := fun _ _ => UBUS_STATUS_UNKNOWN_ERROR }
        connected_state [.str "calc", calc_methods]).ret = .error e) ∧
    (ubus_python_listen calc_runtime_rejecting connected_state
      [.tuple [.str "net.up", .callable 1], .tuple [.str "net.down", .callable 2]]).ret
        = .ok .None :=
  ⟨(bus_failures_surface_except
      { calc_runtime with ubus_add_object := fun _ _ => UBUS_STATUS_UNKNOWN_ERROR }
      connected_state 1 [.str "calc", calc_methods] "calc" "add" .None 0 rfl).1
      calc_object.object (by simp [ubus_python_add, connected_state, calc_methods,
        calc_object, calc_runtime, PyStr_Check]; decide) (by decide),
    ((bus_failures_surface_except calc_runtime_rejecting connected_state 1
      [.tuple [.str "net.up", .callable 1], .tuple [.str "net.down", .callable 2]]
      "calc" "add" .None 0 rfl).2.2.2.2.2 (by simp [connected_state]) (by simp)
      (by
        intro a ha
        simp only [List.mem_cons, List.mem_singleton, List.not_mem_nil, or_false] at ha
        rcases ha with rfl | rfl <;> exact ⟨_, _, rfl⟩)
      (fun _ => rfl)).1⟩

/-! ## The lifecycle invariant -/

/-- Every reachable state satisfies the lifecycle invariant. -/
theorem reachable_invariant (st : Module) (h : Reachable st) : lifecycle_invariant st := by
  induction h with
  | initial => exact ⟨by simp [Module.initial], fun _ => ⟨rfl, rfl⟩⟩
  | connect rt st args _ h1 h2 ih => exact connect_invariant rt st args ih h1 h2
  | disconnect st args _ ih => exact disconnect_invariant st args ih
  | add rt st args _ ih =>
    obtain ⟨a1, a2, a3, a4⟩ := add_outcome rt st args
    refine ⟨by rw [a1, a2]; exact ih.1, ?_⟩
    intro hc
    rw [a1] at hc
    have hn : ubus_python_add rt st args = not_connected st := by
      unfold ubus_python_add; rw [hc]
    rw [hn]
    exact ih.2 hc
  | listen rt st args _ ih =>
    obtain ⟨a1, a2, a3⟩ := listen_frame rt st args
    refine ⟨by rw [a1, a2]; exact ih.1, ?_⟩
    intro hc
    rw [a1] at hc
    have hn : ubus_python_listen rt st args = not_connected st := by
      unfold ubus_python_listen; rw [hc]
    rw [hn]
    exact ih.2 hc

/-- C17: in every state reached from the initial state by `connect` (opening the
transport or failing to), `disconnect`, `add` and `listen` calls, `get_socket_path()`
returns a path exactly when `get_connected()` is true, and while disconnected both
registries are empty.  From such a disconnected state, a `connect` whose transport does
not open returns the error "Failed to connect to the ubus socket" and leaves no socket
path, no registry entry and no connection, and a `connect` that opens it returns true and
stores exactly the path given, or the default socket path when none is given. -/
theorem socket_path_iff_connected (st : Module) (h : Reachable st) :
    ((∃ path, ubus_python_get_socket_path st = .str path) ↔
      ubus_python_get_connected st = .bool true) ∧
    (ubus_python_get_connected st = .bool false → st.objects = [] ∧ st.listeners = []) ∧
    (st.ctx = none → ∀ (rt : Runtime) (args : List PyObject) (path : String),
      (args = [] ∧ path = DEFAULT_SOCKET) ∨ args = [.str path] →
      rt.alloc .alloc_list = true → rt.alloc .socket_path = true →
      (rt.ubus_connect path = none →
        (ubus_python_connect rt st args).ret =
          .error (.IOError ("Failed to connect to the ubus socket \x27" ++ path ++ "\x27\n")) ∧
        ubus_python_get_socket_path (ubus_python_connect rt st args).state = .None ∧
        ubus_python_get_connected (ubus_python_connect rt st args).state = .bool false ∧
        (ubus_python_connect rt st args).state.objects = [] ∧
        (ubus_python_connect rt st args).state.listeners = []) ∧
      (∀ ctx, rt.ubus_connect path = some ctx →
        (ubus_python_connect rt st args).ret = .ok (.bool true) ∧
        ubus_python_get_socket_path (ubus_python_connect rt st args).state = .str path ∧
        ubus_python_get_connected (ubus_python_connect rt st args).state = .bool true)) := by
  have hi := reachable_invariant st h
  refine ⟨?_, ?_, ?_⟩
  · unfold ubus_python_get_socket_path ubus_python_get_connected
    have h1 := hi.1
    cases hs : st.socket_path <;> cases hc : st.ctx <;> simp [hs, hc] at h1 ⊢
  · intro hg
    apply hi.2
    unfold ubus_python_get_connected at hg
    cases hc : st.ctx with
    | none => rfl
    | some c => simp [hc] at hg
  · intro hc rt args path hp h1 h2
    have hsp : st.socket_path = none := by
      have := hi.1
      rw [hc] at this
      cases hs : st.socket_path with
      | none => rfl
      | some p => rw [hs] at this; simp at this
    have hp2 : (args = [] ∧ st.socket_path = none ∧ path = DEFAULT_SOCKET) ∨
        args = [.str path] := by
      rcases hp with ⟨ha, hd⟩ | ha
      · exact Or.inl ⟨ha, hsp, hd⟩
      · exact Or.inr ha
    rw [connect_disconnected rt st args path hc hp2 h1 h2]
    constructor
    · intro hn
      rw [hn]
      exact ⟨rfl, rfl, rfl, rfl, rfl⟩
    · intro ctx hn
      rw [hn]
      exact ⟨rfl, rfl, rfl⟩

/-- C17 at the scenario: the state left by `connect()`, `add` of "calc" and
`disconnect()`, and from it a `connect` on a transport that does not open. -/
theorem socket_path_iff_connected_witness :
    ubus_python_get_socket_path (ubus_python_disconnect (ubus_python_add calc_runtime
      (ubus_python_connect calc_runtime Module.initial []).state
      [.str "calc", calc_methods]).state []).state = .None ∧
    (ubus_python_connect calc_runtime_no_transport (ubus_python_disconnect
      (ubus_python_add calc_runtime (ubus_python_connect calc_runtime Module.initial []).state
        [.str "calc", calc_methods]).state []).state [.str "/tmp/ubus.sock"]).ret =
      .error (.IOError "Failed to connect to the ubus socket \x27/tmp/ubus.sock\x27\n") ∧
    ubus_python_get_socket_path (ubus_python_connect calc_runtime_no_transport
      (ubus_python_disconnect (ubus_python_add calc_runtime
        (ubus_python_connect calc_runtime Module.initial []).state
        [.str "calc", calc_methods]).state []).state [.str "/tmp/ubus.sock"]).state = .None :=
  have h := socket_path_iff_connected
    (ubus_python_disconnect (ubus_python_add calc_runtime
      (ubus_python_connect calc_runtime Module.initial []).state
      [.str "calc", calc_methods]).state []).state
    (Reachable.disconnect _ _ (Reachable.add _ _ _
      (Reachable.connect calc_runtime Module.initial [] Reachable.initial rfl rfl)))
  have hc := (h.2.2 rfl calc_runtime_no_transport [.str "/tmp/ubus.sock"] "/tmp/ubus.sock"
    (Or.inr rfl) rfl rfl).1 rfl
  ⟨rfl, hc.1, hc.2.1⟩

end UbusPython
